import Mathlib

/-! react-collapse: the `Collapse` component (`src/Collapse.js`)

A shallow embedding of the component and proofs about it.

Conventions of the embedding.

* JavaScript numbers are the finite ones, modelled exactly as rationals (every finite
  double is a rational, and `Math.max`, the comparisons and `toFixed` are exact on them).
  `parseFloat` of a number is that number.
* Strings are Lean strings; `toFixed(1)` follows the steps of ECMAScript
  `Number.prototype.toFixed` with `fractionDigits = 1`.
* A JavaScript object is an association list with one entry per key; an object spread
  copies the entries of its source in order, overwriting the value of a key already there.
* The instance fields `this.props`, `this.state`, `this.height`, `this.renderStatic` are the
  fields of `Inst`; a method that mutates them returns the new instance. A method that can
  invoke the `onHeightReady` prop returns the list of arguments it invoked it with.
* `this.setState` inside a lifecycle method or a `HeightReporter` callback is batched by
  React: `this.state` read in the same method still holds the previous state.
* `Motion` and `spring` (react-motion) and `HeightReporter` (react-height) are collaborators:
  a rendered `Motion` is recorded with its `defaultStyle`, `style` and child function, and
  the child function is applied to the interpolated height on an explicit tick.
-/

namespace Collapse

/-! ## Numbers and `toFixed(1)` -/

/-- The constant `PRECISION` of line 9. -/
def PRECISION : ℚ := 1 / 2

/-- The function `parseFloat` applied to a (finite) number gives the number back. -/
def parseFloat (x : ℚ) : ℚ := x

/-- The integer `n` for which `n / 10 - x` is as close to zero as possible, the larger one
when there are two (`toFixed`, step 10.a with `f = 1`), for `x ≥ 0`. -/
def nearestTenths (x : ℚ) : ℕ := (Int.floor (10 * x + 1 / 2)).toNat

/-- Drops the zeros at the end of a digit list. -/
def stripTrailingZeros (ds : List Char) : List Char :=
  (ds.reverse.dropWhile (fun c => c == '0')).reverse

/-- ECMAScript `Number::toString` for a value `x ≥ 10^21` (the only place `toFixed` uses it):
with `n` the number of integer digits of `x` and `s` its significant digits, the result is
`s` (a point after its first digit when it has more than one), then `e+`, then `n - 1`.
The digits are those of the exact value (a double at least `10^21` is an integer). -/
def numberToStringExp (x : ℚ) : List Char :=
  let ds := Nat.toDigits 10 (Int.floor x).toNat
  let n := ds.length
  let s := stripTrailingZeros ds
  let e := ['e', '+'] ++ Nat.toDigits 10 (n - 1)
  if s.length = 1 then s ++ e else s.take 1 ++ ['.'] ++ s.drop 1 ++ e

/-- Steps 10.b to 10.d of `toFixed` with `f = 1`: the decimal digits of `n`, padded with
zeros on the left to at least two characters, with a point before the last one. -/
def fixedDigits (n : ℕ) : List Char :=
  let m := if n = 0 then ['0'] else Nat.toDigits 10 n
  let k := m.length
  let m := if k ≤ 1 then List.replicate (1 + 1 - k) '0' ++ m else m
  let k := m.length
  m.take (k - 1) ++ ['.'] ++ m.drop (k - 1)

/-- The method call `x.toFixed(1)` on a finite number. -/
def toFixed1 (x : ℚ) : String :=
  let s := if x < 0 then ['-'] else []
  let x := if x < 0 then -x else x
  let m := if 10 ^ 21 ≤ x then numberToStringExp x else fixedDigits (nearestTenths x)
  String.mk (s ++ m)

/-- Line 12: `height => Math.max(0, parseFloat(height)).toFixed(1)`. -/
def stringHeight (height : ℚ) : String := toFixed1 (max 0 (parseFloat height))

/-! ## Objects -/

/-- Sets key `k` of an association list: in place when the key is there, at the end
otherwise. -/
def setEntry {β : Type} (k : String) (v : β) : List (String × β) → List (String × β)
  | [] => [(k, v)]
  | (k0, v0) :: rest => if k0 = k then (k0, v) :: rest else (k0, v0) :: setEntry k v rest

/-- The keys of `setEntry k v l` are those of `l`, with `k` added at the end when new. -/
theorem keys_setEntry {β : Type} (k : String) (v : β) (l : List (String × β)) :
    (setEntry k v l).map Prod.fst =
      if k ∈ l.map Prod.fst then l.map Prod.fst else l.map Prod.fst ++ [k] := by
  induction l with
  | nil => simp [setEntry]
  | cons e rest ih =>
    obtain ⟨k0, v0⟩ := e
    by_cases h : k0 = k
    · simp [setEntry, h]
    · have h2 : ¬ k = k0 := fun e => h e.symm
      by_cases hm : k ∈ rest.map Prod.fst
      · simp [setEntry, h, h2, ih, hm]
      · simp [setEntry, h, h2, ih, hm]

/-- Setting a key keeps the keys distinct. -/
theorem nodup_setEntry {β : Type} (k : String) (v : β) (l : List (String × β))
    (h : (l.map Prod.fst).Nodup) : ((setEntry k v l).map Prod.fst).Nodup := by
  rw [keys_setEntry]
  split
  · exact h
  · rename_i hk
    rw [List.nodup_append]
    refine ⟨h, List.nodup_singleton k, ?_⟩
    intro a ha hb
    rw [List.mem_singleton] at hb
    exact hk (hb ▸ ha)

/-- A JavaScript object with string keys: its entries in insertion order, one per key. -/
structure Obj (β : Type) where
  entries : List (String × β)
  nodup : (entries.map Prod.fst).Nodup
  deriving DecidableEq

namespace Obj

/-- The object `{}`. -/
def empty {β : Type} : Obj β := ⟨[], List.nodup_nil⟩

/-- The value of `o[k]`, when `k` is a key of `o`. -/
def get {β : Type} (o : Obj β) (k : String) : Option β := o.entries.lookup k

/-- The object after `o[k] = v`. -/
def set {β : Type} (o : Obj β) (k : String) (v : β) : Obj β :=
  ⟨setEntry k v o.entries, nodup_setEntry k v o.entries o.nodup⟩

/-- The object `{...o, ...src}`: the entries of `src` are set on `o` one after the other. -/
def spread {β : Type} (o src : Obj β) : Obj β :=
  src.entries.foldl (fun acc kv => acc.set kv.1 kv.2) o

end Obj

/-- Values found in a `style` object: a number (of pixels) or a keyword. -/
inductive StyleValue where
  | num (v : ℚ)
  | str (s : String)
  deriving DecidableEq

/-- A `style` object. -/
abbrev Style := Obj StyleValue

/-! ## Props, state and the instance -/

/-- The props of `Collapse` (lines 16 to 25). `children` and the two callbacks are
identified by a label; `rest` holds the props passed through to the wrapper. -/
structure Props where
  isOpened : Bool
  children : String
  fixedHeight : ℚ
  style : Style
  springConfig : Option (Obj ℚ)
  keepCollapsedContent : Bool
  onRest : Option String
  onHeightReady : String
  rest : Obj String
  deriving DecidableEq

/-- The defaults of `getDefaultProps` (lines 28 to 35) applied to the required props. -/
def getDefaultProps (isOpened : Bool) (children : String) : Props :=
  { isOpened := isOpened
    children := children
    fixedHeight := -1
    style := Obj.empty
    springConfig := none
    keepCollapsedContent := false
    onRest := none
    onHeightReady := "noop"
    rest := Obj.empty }

/-- The component state. -/
structure State where
  height : ℚ
  isOpenedChanged : Bool
  deriving DecidableEq

/-- Lines 38 to 40. -/
def getInitialState : State := { height := -1, isOpenedChanged := false }

/-- A component instance: `this.props`, `this.state` and the two instance fields. -/
structure Inst where
  props : Props
  state : State
  height : String
  renderStatic : Bool
  deriving DecidableEq

/-- Lines 42 to 45. -/
def componentWillMount (self : Inst) : Inst :=
  { self with height := stringHeight 0, renderStatic := true }

/-- The instance React hands to the first render: initial state, then
`componentWillMount`. The two instance fields are unset before `componentWillMount`. -/
def mount (props : Props) : Inst :=
  componentWillMount { props := props, state := getInitialState, height := "", renderStatic := false }

/-- Lines 48 to 50: the state that `setState` leaves pending. -/
def componentWillReceiveProps (self : Inst) (nextProps : Props) : State :=
  { self.state with isOpenedChanged := (nextProps.isOpened != self.props.isOpened) }

/-- Line 53, the pure-render mixin: the props or the state are not shallowly equal.
A prop with another content is another value; `refsChanged` says that a prop with the same
content is nevertheless another object. -/
def shouldComponentUpdate (self : Inst) (nextProps : Props) (nextState : State)
    (refsChanged : Bool) : Bool :=
  refsChanged || decide (self.props ≠ nextProps) || decide (self.state ≠ nextState)

/-- Lines 56 to 62: the arguments with which the `onHeightReady` prop is invoked. -/
def componentDidUpdate (self : Inst) (prevProps : Props) : List ℚ :=
  if prevProps.isOpened != self.props.isOpened then
    let report := if self.props.isOpened then self.state.height else 0
    [report]
  else []

/-- Lines 65 to 79: the instance after the report (the pending state applied) and the
arguments with which the `onHeightReady` prop is invoked. The comparison of line 76 reads
the state from before the `setState` of line 72. -/
def onHeightReady (self : Inst) (height : ℚ) : Inst × List ℚ :=
  let isOpened := self.props.isOpened
  let committed := if self.renderStatic && isOpened then stringHeight height else self.height
  let nextState : State :=
    { self.state with height := if isOpened || !self.renderStatic then height else 0 }
  let reportHeight := if isOpened then height else 0
  let calls := if self.state.height ≠ reportHeight then [reportHeight] else []
  ({ self with height := committed, state := nextState }, calls)

/-! ## Rendering -/

/-- The `height` given to `Motion` as its `style`: a plain number, which `Motion` takes
at once, or `spring(val, config)`. -/
inductive MotionHeight where
  | instant (val : ℚ)
  | spring (val : ℚ) (config : Obj ℚ)
  deriving DecidableEq

/-- What a wrapper holds: `children` themselves, or `children` in a `HeightReporter`. -/
inductive Content where
  | children (c : String)
  | heightReporter (c : String)
  deriving DecidableEq

/-- A wrapper `<div style={style} {...props}>`. -/
structure Div where
  style : Style
  attrs : Obj String
  content : Content
  deriving DecidableEq

/-- The function given to `Motion` as its child, with the variables it closes over. -/
inductive ChildFn where
  | static (wrapper : Div)
  | animated (props : Props) (currentStringHeight : String)
  | fixed (props : Props)
  deriving DecidableEq

/-- What `render` returns. -/
inductive Element where
  | null
  | div (wrapper : Div)
  | motion (defaultHeight : ℚ) (height : MotionHeight) (onRest : Option String) (child : ChildFn)
  deriving DecidableEq

/-- The object `{height: 'auto'}`. -/
def styleAuto : Style := Obj.empty.set "height" (.str "auto")

/-- The object `{overflow: 'hidden', height: h}`. -/
def styleHidden (h : ℚ) : Style :=
  (Obj.empty.set "overflow" (.str "hidden")).set "height" (.num h)

/-- The object `{height: h, overflow: 'hidden'}`. -/
def styleBounded (h : ℚ) : Style :=
  (Obj.empty.set "height" (.num h)).set "overflow" (.str "hidden")

/-- Lines 82 to 100. -/
def getMotionHeight (self : Inst) (height : ℚ) : MotionHeight :=
  let isOpened := self.props.isOpened
  let springConfig := self.props.springConfig
  let fixedHeight := self.props.fixedHeight
  let isOpenedChanged := self.state.isOpenedChanged
  let newHeight := if isOpened then toFixed1 (max 0 (parseFloat height)) else stringHeight 0
  let skipAnimation := (!isOpenedChanged && !isOpened) ||
    (decide (self.height = newHeight) && decide (fixedHeight = -1))
  let config := match springConfig with
    | some c => (Obj.empty.set "precision" PRECISION).spread c
    | none => Obj.empty.set "precision" PRECISION
  let springHeight := MotionHeight.spring (if isOpened then max 0 height else 0) config
  let instantHeight := if isOpened then max 0 height else 0
  if skipAnimation then MotionHeight.instant instantHeight else springHeight

/-- Lines 131 to 143: the child function of the `Motion` of `renderFixed`. -/
def fixedChild (p : Props) (self : Inst) (height : ℚ) : Inst × Element :=
  let self := { self with height := stringHeight height }
  if !p.keepCollapsedContent && !p.isOpened && decide (self.height = stringHeight 0) then
    (self, Element.null)
  else
    let newStyle := styleHidden height
    (self, Element.div ⟨newStyle.spread p.style, p.rest, Content.children p.children⟩)

/-- Lines 103 to 146. -/
def renderFixed (self : Inst) : Inst × Element :=
  let p := self.props
  if self.renderStatic then
    let self := { self with renderStatic := false }
    let newStyle := styleHidden (if p.isOpened then p.fixedHeight else 0)
    if !p.keepCollapsedContent && !p.isOpened then
      (self, Element.null)
    else
      let self := { self with height := stringHeight p.fixedHeight }
      (self, Element.div ⟨newStyle.spread p.style, p.rest, Content.children p.children⟩)
  else
    (self, Element.motion (if p.isOpened then 0 else p.fixedHeight)
      (getMotionHeight self p.fixedHeight) none (ChildFn.fixed p))

/-- Lines 210 to 229: the child function of the `Motion` of the animated branch of
`render`. -/
def animatedChild (p : Props) (currentStringHeight : String) (self : Inst) (height : ℚ) :
    Inst × Element :=
  let content := Content.heightReporter p.children
  let self := { self with height := stringHeight height }
  if !p.isOpened && decide (self.height = "0.0") then
    if !p.keepCollapsedContent then
      (self, Element.null)
    else
      (self, Element.div ⟨(styleBounded 0).spread p.style, p.rest, content⟩)
  else
    let newStyle :=
      if p.isOpened && decide (self.height = currentStringHeight) then styleAuto
      else styleBounded height
    (self, Element.div ⟨newStyle.spread p.style, p.rest, content⟩)

/-- Lines 149 to 232. -/
def render (self : Inst) : Inst × Element :=
  let p := self.props
  if p.fixedHeight > -1 then
    renderFixed self
  else
    let renderStatic := self.renderStatic
    let height := self.state.height
    let currentStringHeight := toFixed1 (parseFloat height)
    let self := if decide (height > -1) && renderStatic then { self with renderStatic := false } else self
    let content := Content.heightReporter p.children
    if renderStatic then
      let newStyle := if p.isOpened then styleAuto else styleHidden 0
      if !p.isOpened && decide (height > -1) then
        if !p.keepCollapsedContent then
          (self, Element.null)
        else
          (self, Element.div ⟨(styleBounded 0).spread p.style, p.rest, content⟩)
      else
        (self, Element.motion (max 0 height) (MotionHeight.instant (max 0 height)) p.onRest
          (ChildFn.static ⟨newStyle.spread p.style, p.rest, content⟩))
    else
      (self, Element.motion (max 0 height) (getMotionHeight self height) p.onRest
        (ChildFn.animated p currentStringHeight))

/-- Applies the child function of a `Motion` to an interpolated height. -/
def ChildFn.call (f : ChildFn) (self : Inst) (height : ℚ) : Inst × Element :=
  match f with
  | ChildFn.static wrapper => (self, Element.div wrapper)
  | ChildFn.animated p cur => animatedChild p cur self height
  | ChildFn.fixed p => fixedChild p self height

/-! ## The host: updates, height reports and ticks -/

/-- A mounted component: the instance and the element its last render returned. -/
structure Mounted where
  inst : Inst
  output : Element
  deriving DecidableEq

/-- Mounting: `getInitialState`, `componentWillMount`, the first render. None of them
invokes the `onHeightReady` prop, and the component has no `componentDidMount`. -/
def firstRender (props : Props) : Mounted × List ℚ :=
  let r := render (mount props)
  (⟨r.1, r.2⟩, [])

/-- An update with new props, as React runs it: `componentWillReceiveProps`,
`shouldComponentUpdate`, the assignment of props and state, and when the component
updates `render` and `componentDidUpdate` with the previous props. -/
def updateProps (m : Mounted) (nextProps : Props) (refsChanged : Bool) : Mounted × List ℚ :=
  let nextState := componentWillReceiveProps m.inst nextProps
  let should := shouldComponentUpdate m.inst nextProps nextState refsChanged
  let prevProps := m.inst.props
  let inst := { m.inst with props := nextProps, state := nextState }
  if should then
    let r := render inst
    (⟨r.1, r.2⟩, componentDidUpdate r.1 prevProps)
  else
    (⟨inst, m.output⟩, [])

/-- A height report from `HeightReporter`: `onHeightReady`, then the update its `setState`
asks for (no `componentWillReceiveProps`: the props are the same). -/
def reportHeight (m : Mounted) (height : ℚ) : Mounted × List ℚ :=
  let r := onHeightReady m.inst height
  if shouldComponentUpdate m.inst m.inst.props r.1.state false then
    let r2 := render r.1
    (⟨r2.1, r2.2⟩, r.2 ++ componentDidUpdate r2.1 m.inst.props)
  else
    (⟨r.1, m.output⟩, r.2)

/-- An interpolation tick: `Motion` applies its child function to the interpolated height.
The result is the element painted; nothing happens when no `Motion` is rendered. -/
def tick (m : Mounted) (height : ℚ) : Mounted × Element :=
  match m.output with
  | Element.motion _ _ _ child =>
    let r := child.call m.inst height
    (⟨r.1, m.output⟩, r.2)
  | _ => (m, m.output)

/-- The operations a mounted component goes through. -/
inductive Op where
  | receiveProps (nextProps : Props) (refsChanged : Bool)
  | heightReport (height : ℚ)
  | tick (height : ℚ)
  deriving DecidableEq

/-- One operation: the component after it and the arguments with which the
`onHeightReady` prop was invoked. -/
def step (m : Mounted) : Op → Mounted × List ℚ
  | Op.receiveProps nextProps refsChanged => updateProps m nextProps refsChanged
  | Op.heightReport height => reportHeight m height
  | Op.tick height => ((tick m height).1, [])

/-- A sequence of operations, with all invocations of the `onHeightReady` prop in order. -/
def run (m : Mounted) : List Op → Mounted × List ℚ
  | [] => (m, [])
  | op :: ops =>
    let r := step m op
    let rs := run r.1 ops
    (rs.1, r.2 ++ rs.2)

/-! ## Properties used below -/

/-- The wrapper `e` is a `div` with the given height and hidden overflow that holds the
children `c` (directly or inside the `HeightReporter`). -/
def IsHiddenWrapper (e : Element) (h : ℚ) (c : String) : Prop :=
  ∃ d : Div, e = Element.div d ∧ d.style.get "height" = some (StyleValue.num h) ∧
    d.style.get "overflow" = some (StyleValue.str "hidden") ∧
    (d.content = Content.children c ∨ d.content = Content.heightReporter c)

/-- The style of the wrapper `d` is a computed style, with a `height` and at most an
`overflow` besides, overwritten by the caller style `style` key by key. -/
def CallerStyleWins (style : Style) (d : Div) : Prop :=
  ∃ computed : Style,
    (∀ k, computed.get k ≠ none → k = "height" ∨ k = "overflow") ∧
    computed.get "height" ≠ none ∧
    (∀ k val, style.get k = some val → d.style.get k = some val) ∧
    (∀ k, style.get k = none → d.style.get k = computed.get k)

/-! ## Sample inputs -/

/-- A closed panel with the default props. -/
def closedProps : Props := getDefaultProps false "content"

/-- An opened panel with the default props. -/
def openProps : Props := getDefaultProps true "content"

/-- An instance in the animated phase that has just been reopened: measured height 120,
committed height string "0.0". -/
def reopening : Inst :=
  { props := openProps, state := { height := 120, isOpenedChanged := true },
    height := "0.0", renderStatic := false }

/-- An opened panel of fixed height 50 that keeps its collapsed content. -/
def keepFixedOpen : Props :=
  { getDefaultProps true "content" with fixedHeight := 50, keepCollapsedContent := true }

/-- The same panel, closed. -/
def keepFixedClosed : Props :=
  { getDefaultProps false "content" with fixedHeight := 50, keepCollapsedContent := true }

/-- A closed panel that keeps its collapsed content, with the caller style `{height: 7}`. -/
def styledClosed : Props :=
  { getDefaultProps false "content" with
    keepCollapsedContent := true, style := Obj.empty.set "height" (StyleValue.num 7) }

/-- A closed panel of fixed height 50. -/
def fixedClosed : Props := { getDefaultProps false "content" with fixedHeight := 50 }

/-- An opened panel of fixed height 50. -/
def fixedOpen : Props := { getDefaultProps true "content" with fixedHeight := 50 }

/-- A closed panel whose `fixedHeight` is -1/2, which is above -1. -/
def fixedNegativeClosed : Props :=
  { getDefaultProps false "content" with fixedHeight := -1 / 2 }

/-- The same panel, opened. -/
def fixedNegativeOpen : Props :=
  { getDefaultProps true "content" with fixedHeight := -1 / 2 }

/-- The panel of `openProps` after its first measurement 120 and after closing. -/
def closedAfterOpen : Mounted :=
  (run (firstRender openProps).1 [Op.heightReport 120, Op.receiveProps closedProps false]).1

/-- An instance reopened at 120 whose caller gives the spring its own `precision`. -/
def preciseReopening : Inst :=
  { reopening with
    props := { openProps with
      springConfig := some ((Obj.empty.set "stiffness" 200).set "precision" (1 / 100)) } }

/-- The value a `Motion` height goes to: the number itself, or the target of the spring. -/
def MotionHeight.target : MotionHeight → ℚ
  | MotionHeight.instant val => val
  | MotionHeight.spring val _ => val

/-- An opened panel in the animated phase: measured at 120 and then at 130. -/
def measuredTwice : Mounted :=
  (run (firstRender openProps).1 [Op.heightReport 120, Op.heightReport 130]).1

/-- The string `s` is the decimal digits of a natural number, a point and one digit. -/
def IsOneDecimal (s : String) : Prop :=
  ∃ a d : ℕ, d < 10 ∧ s = Nat.repr a ++ "." ++ Nat.repr d

/-- The height that an operation feeds the component (a `fixedHeight` prop, a reported
height, an interpolated height) has the property `P`. -/
def Op.Feeds (P : ℚ → Prop) : Op → Prop
  | Op.receiveProps nextProps _ => P nextProps.fixedHeight
  | Op.heightReport height => P height
  | Op.tick height => P height

/-- The committed height string is `stringHeight` of a number with the property `P`, and
the `fixedHeight` prop has the property `P`. -/
def Committed (P : ℚ → Prop) (self : Inst) : Prop :=
  (∃ x, P x ∧ self.height = stringHeight x) ∧ P self.props.fixedHeight

/-! ## Lemmas on `toFixed(1)` -/

theorem stringHeight_zero : stringHeight 0 = "0.0" := by decide!

theorem stringHeight_eq (h : ℚ) : toFixed1 (max 0 (parseFloat h)) = stringHeight h := rfl

/-! ## Lemmas on objects -/

theorem lookup_cons_ite {β : Type} (j k0 : String) (v0 : β) (rest : List (String × β)) :
    List.lookup j ((k0, v0) :: rest) = if j = k0 then some v0 else List.lookup j rest := by
  rw [List.lookup_cons]
  by_cases h : j = k0
  · rw [if_pos h, beq_iff_eq.mpr h]
  · rw [if_neg h, beq_eq_false_iff_ne.mpr h]

theorem lookup_setEntry {β : Type} (k : String) (v : β) (j : String) (l : List (String × β)) :
    (setEntry k v l).lookup j = if j = k then some v else l.lookup j := by
  induction l with
  | nil => simp [setEntry, lookup_cons_ite]
  | cons e rest ih =>
    obtain ⟨k0, v0⟩ := e
    by_cases h0 : k0 = k
    · subst h0
      by_cases h : j = k0
      · simp [setEntry, lookup_cons_ite, h]
      · simp [setEntry, lookup_cons_ite, h]
    · by_cases h : j = k
      · subst h
        have h1 : ¬ j = k0 := fun e => h0 e.symm
        simp [setEntry, lookup_cons_ite, h0, ih, h1]
      · by_cases h2 : j = k0
        · simp [setEntry, lookup_cons_ite, h0, h, h2]
        · simp [setEntry, lookup_cons_ite, h0, h, ih, h2]

theorem Obj.get_set {β : Type} (o : Obj β) (k : String) (v : β) (j : String) :
    (o.set k v).get j = if j = k then some v else o.get j :=
  lookup_setEntry k v j o.entries

theorem Obj.get_empty {β : Type} (j : String) : (Obj.empty : Obj β).get j = none := rfl

theorem get_foldl_set {β : Type} (l : List (String × β)) :
    ∀ (o : Obj β), (l.map Prod.fst).Nodup → ∀ j : String,
      (l.foldl (fun acc kv => acc.set kv.1 kv.2) o).get j =
        match l.lookup j with
        | some v => some v
        | none => o.get j := by
  induction l with
  | nil => intro o _ j; simp [List.lookup]
  | cons e rest ih =>
    intro o hnd j
    obtain ⟨k0, v0⟩ := e
    simp only [List.map_cons, List.nodup_cons] at hnd
    rw [List.foldl_cons, ih _ hnd.2 j, Obj.get_set, lookup_cons_ite]
    by_cases h : j = k0
    · subst h
      have hnone : rest.lookup j = none := by
        rw [List.lookup_eq_none_iff]
        intro a ha
        have hne : j ≠ a.1 := by
          intro hb
          apply hnd.1
          rw [List.mem_map]
          exact ⟨a, ha, hb.symm⟩
        simpa using hne
      simp [hnone]
    · simp [h]

/-- In `{...o, ...src}` a key of `src` has the value `src` gives it, and any other key the
value `o` gives it. -/
theorem Obj.get_spread {β : Type} (o src : Obj β) (j : String) :
    (o.spread src).get j = match src.get j with
      | some v => some v
      | none => o.get j :=
  get_foldl_set src.entries o src.nodup j

theorem Obj.get_spread_of_some {β : Type} (o src : Obj β) (j : String) (v : β)
    (h : src.get j = some v) : (o.spread src).get j = some v := by
  rw [Obj.get_spread, h]

theorem Obj.get_spread_of_none {β : Type} (o src : Obj β) (j : String)
    (h : src.get j = none) : (o.spread src).get j = o.get j := by
  rw [Obj.get_spread, h]

theorem get_styleBounded (h : ℚ) (k : String) :
    (styleBounded h).get k =
      if k = "overflow" then some (StyleValue.str "hidden")
      else if k = "height" then some (StyleValue.num h) else none := by
  simp [styleBounded, Obj.get_set, Obj.get_empty]

theorem get_styleHidden (h : ℚ) (k : String) :
    (styleHidden h).get k =
      if k = "height" then some (StyleValue.num h)
      else if k = "overflow" then some (StyleValue.str "hidden") else none := by
  simp [styleHidden, Obj.get_set, Obj.get_empty]

theorem get_styleAuto (k : String) :
    styleAuto.get k = if k = "height" then some (StyleValue.str "auto") else none := by
  simp [styleAuto, Obj.get_set, Obj.get_empty]

/-! ## The animation decision -/

/-- The body of `getMotionHeight` with its condition written as a proposition. -/
theorem getMotionHeight_eq (self : Inst) (h : ℚ) :
    getMotionHeight self h =
      if (self.state.isOpenedChanged = false ∧ self.props.isOpened = false) ∨
          (self.height = (if self.props.isOpened then stringHeight h else "0.0") ∧
            self.props.fixedHeight = -1) then
        MotionHeight.instant (if self.props.isOpened then max 0 h else 0)
      else
        MotionHeight.spring (if self.props.isOpened then max 0 h else 0)
          (match self.props.springConfig with
            | some c => (Obj.empty.set "precision" PRECISION).spread c
            | none => Obj.empty.set "precision" PRECISION) := by
  unfold getMotionHeight
  simp only [stringHeight_eq, stringHeight_zero]
  by_cases hs : (self.state.isOpenedChanged = false ∧ self.props.isOpened = false) ∨
          (self.height = (if self.props.isOpened then stringHeight h else "0.0") ∧
            self.props.fixedHeight = -1)
  · rw [if_pos hs, if_pos]
    rcases hs with ⟨h1, h2⟩ | ⟨h1, h2⟩
    · simp [h1, h2]
    · simp [← h1, h2]
  · have hn : ¬ (((!self.state.isOpenedChanged && !self.props.isOpened) ||
        (decide (self.height = if self.props.isOpened = true then stringHeight h else "0.0") &&
          decide (self.props.fixedHeight = -1))) = true) := by
      intro hc
      apply hs
      simp only [Bool.or_eq_true, Bool.and_eq_true, Bool.not_eq_true', decide_eq_true_eq] at hc
      exact hc
    rw [if_neg hs, if_neg hn]

/-- C1: `getMotionHeight(h)` returns the instant value exactly when
(`isOpenedChanged` is false and `isOpened` is false) or (`this.height` equals `newHeight`
and `fixedHeight` is -1), with `newHeight = stringHeight(h)` if `isOpened` and `"0.0"`
otherwise; the instant value is `max(0,h)` if `isOpened` and 0 otherwise, and in every other
case the result is a spring with that same value as target. -/
theorem getMotionHeight_skip_iff (self : Inst) (h : ℚ) :
    (((self.state.isOpenedChanged = false ∧ self.props.isOpened = false) ∨
        (self.height = (if self.props.isOpened then stringHeight h else "0.0") ∧
          self.props.fixedHeight = -1)) →
      getMotionHeight self h =
        MotionHeight.instant (if self.props.isOpened then max 0 h else 0)) ∧
    (¬ ((self.state.isOpenedChanged = false ∧ self.props.isOpened = false) ∨
        (self.height = (if self.props.isOpened then stringHeight h else "0.0") ∧
          self.props.fixedHeight = -1)) →
      ∃ config, getMotionHeight self h =
        MotionHeight.spring (if self.props.isOpened then max 0 h else 0) config) := by
  rw [getMotionHeight_eq]
  constructor
  · intro hs
    rw [if_pos hs]
  · intro hs
    rw [if_neg hs]
    exact ⟨_, rfl⟩

/-- C1, at concrete inputs: a panel mounted closed gets the instant value 0, a panel
reopened at 120 with committed string "0.0" gets a spring. -/
theorem getMotionHeight_skip_iff_witness :
    getMotionHeight (mount closedProps) 120 =
      MotionHeight.instant (if (mount closedProps).props.isOpened then max 0 120 else 0) ∧
    ∃ config, getMotionHeight reopening 120 =
      MotionHeight.spring (if reopening.props.isOpened then max 0 120 else 0) config :=
  ⟨(getMotionHeight_skip_iff (mount closedProps) 120).1 (by decide!),
   (getMotionHeight_skip_iff reopening 120).2 (by decide!)⟩

/-- C2, as stated, fails: a panel mounted closed, measured at 120 and then opened has
`isOpenedChanged` and `isOpened` true, and its `Motion` gets the instant value 0, not a
spring (the committed string "0.0" equals the target string). -/
theorem reopen_with_equal_strings_is_instant :
    (run (firstRender closedProps).1
        [Op.heightReport 120, Op.receiveProps openProps false]).1.inst.state.isOpenedChanged
      = true ∧
    (run (firstRender closedProps).1
        [Op.heightReport 120, Op.receiveProps openProps false]).1.inst.props.isOpened = true ∧
    (run (firstRender closedProps).1
        [Op.heightReport 120, Op.receiveProps openProps false]).1.output =
      Element.motion 0 (MotionHeight.instant 0) none (ChildFn.animated openProps "0.0") := by
  decide!

/-- C2, amended: `getMotionHeight` returns an instant value only when (`isOpenedChanged` is
false and `isOpened` is false) or (the committed string equals the target string and
`fixedHeight` is -1), whatever `isOpenedChanged` is in the second case. When
`isOpenedChanged` and `isOpened` are true the result is a spring toward `max(0,h)` if the
committed string differs from `stringHeight(h)` or `fixedHeight` is not -1, and the instant
value `max(0,h)` if the strings are equal and `fixedHeight` is -1. -/
theorem getMotionHeight_instant_only (self : Inst) (h : ℚ) :
    (∀ v, getMotionHeight self h = MotionHeight.instant v →
      ((self.state.isOpenedChanged = false ∧ self.props.isOpened = false) ∨
        (self.height = (if self.props.isOpened then stringHeight h else "0.0") ∧
          self.props.fixedHeight = -1))) ∧
    (self.state.isOpenedChanged = true → self.props.isOpened = true →
      ((self.height ≠ stringHeight h ∨ self.props.fixedHeight ≠ -1) →
        ∃ config, getMotionHeight self h = MotionHeight.spring (max 0 h) config) ∧
      (self.height = stringHeight h → self.props.fixedHeight = -1 →
        getMotionHeight self h = MotionHeight.instant (max 0 h))) := by
  rw [getMotionHeight_eq]
  refine ⟨?_, ?_⟩
  · intro v hi
    by_cases hs : (self.state.isOpenedChanged = false ∧ self.props.isOpened = false) ∨
        (self.height = (if self.props.isOpened then stringHeight h else "0.0") ∧
          self.props.fixedHeight = -1)
    · exact hs
    · rw [if_neg hs] at hi
      exact MotionHeight.noConfusion hi
  · intro hc ho
    simp only [hc, ho, if_true, false_and, false_or, Bool.true_eq_false]
    refine ⟨?_, ?_⟩
    · intro hne
      rw [if_neg]
      · exact ⟨_, rfl⟩
      · intro hh
        rcases hne with h1 | h1
        · exact h1 hh.1
        · exact h1 hh.2
    · intro h1 h2
      rw [if_pos ⟨h1, h2⟩]

/-- C2, amended, at a concrete input: reopening at 120 with committed string "0.0" gives
a spring toward 120. -/
theorem getMotionHeight_instant_only_witness :
    ∃ config, getMotionHeight reopening 120 = MotionHeight.spring (max 0 120) config :=
  ((getMotionHeight_instant_only reopening 120).2 (by decide!) (by decide!)).1
    (Or.inl (by decide!))

/-! ## Updates and the `onHeightReady` prop -/

/-- What `renderFixed` leaves unchanged, and the value it gives `renderStatic`. -/
theorem renderFixed_frame (self : Inst) :
    (renderFixed self).1.props = self.props ∧ (renderFixed self).1.state = self.state ∧
      (renderFixed self).1.renderStatic = false := by
  unfold renderFixed
  by_cases h1 : self.renderStatic = true
  · by_cases h2 : (!self.props.keepCollapsedContent && !self.props.isOpened) = true
    · simp [h1, h2]
    · simp [h1, h2]
  · simp only [h1]
    simp at h1
    simp [h1]

/-- What `render` leaves unchanged. -/
theorem render_frame (self : Inst) :
    (render self).1.props = self.props ∧ (render self).1.state = self.state ∧
      (self.renderStatic = false → (render self).1.renderStatic = false) := by
  unfold render
  by_cases hf : self.props.fixedHeight > -1
  · simp only [hf, if_true]
    exact ⟨(renderFixed_frame self).1, (renderFixed_frame self).2.1,
      fun _ => (renderFixed_frame self).2.2⟩
  · simp only [hf, if_false]
    by_cases hr : self.renderStatic = true
    · by_cases hh : self.state.height > -1
      · by_cases ho : self.props.isOpened = true
        · simp [hr, hh, ho]
        · by_cases hk : self.props.keepCollapsedContent = true
          · simp [hr, hh, ho, hk]
          · simp [hr, hh, ho, hk]
      · simp [hr, hh]
    · simp at hr
      simp [hr]

/-- C3, as stated, fails: a panel mounted closed whose content measures 120 (the report
arrives in the static phase, so `state.height` becomes 0) and is then opened has the
`onHeightReady` prop invoked by `componentDidUpdate` with 0, not with the measured 120. -/
theorem open_after_static_report_reports_zero :
    (reportHeight (firstRender closedProps).1 120).1.inst.state.height = 0 ∧
    (updateProps (reportHeight (firstRender closedProps).1 120).1 openProps false).2 = [0] ∧
    (updateProps (reportHeight (firstRender closedProps).1 120).1 openProps false).2 ≠ [120] := by
  decide!

/-- C3, amended: on an update in which `isOpened` differs from the previous `isOpened`,
`componentDidUpdate` invokes the `onHeightReady` prop exactly once, with 0 when the panel
closes and with `this.state.height` when it opens; on an update where `isOpened` did not
change it does not invoke it. -/
theorem updateProps_calls (m : Mounted) (nextProps : Props) (refsChanged : Bool) :
    (nextProps.isOpened ≠ m.inst.props.isOpened →
      (updateProps m nextProps refsChanged).2 =
        [if nextProps.isOpened then m.inst.state.height else 0]) ∧
    (nextProps.isOpened = m.inst.props.isOpened →
      (updateProps m nextProps refsChanged).2 = []) := by
  unfold updateProps
  constructor
  · intro hne
    have hp : m.inst.props ≠ nextProps := fun e => hne (by rw [e])
    have hs : shouldComponentUpdate m.inst nextProps
        (componentWillReceiveProps m.inst nextProps) refsChanged = true := by
      simp [shouldComponentUpdate, hp]
    simp only [hs, if_true]
    unfold componentDidUpdate
    rw [(render_frame _).1, (render_frame _).2.1]
    have hb : (m.inst.props.isOpened != nextProps.isOpened) = true := by
      simpa using fun e => hne e.symm
    simp [hb, componentWillReceiveProps]
  · intro he
    by_cases hs : shouldComponentUpdate m.inst nextProps
        (componentWillReceiveProps m.inst nextProps) refsChanged = true
    · simp only [hs, if_true]
      unfold componentDidUpdate
      rw [(render_frame _).1]
      simp [he]
    · simp only [hs]
      rfl

/-- C3, amended, at concrete inputs: opening the panel of the counterexample reports its
`state.height`, and an update with the same props reports nothing. -/
theorem updateProps_calls_witness :
    (updateProps (reportHeight (firstRender closedProps).1 120).1 openProps false).2 =
      [if openProps.isOpened then
        (reportHeight (firstRender closedProps).1 120).1.inst.state.height else 0] ∧
    (updateProps (firstRender closedProps).1 closedProps true).2 = [] :=
  ⟨(updateProps_calls (reportHeight (firstRender closedProps).1 120).1 openProps false).1
      (by decide!),
   (updateProps_calls (firstRender closedProps).1 closedProps true).2 (by decide!)⟩

/-! ## Wrappers and their style -/

theorem isHiddenWrapper_bounded (p : Props) (h : ℚ) (c : Content)
    (hc : c = Content.children p.children ∨ c = Content.heightReporter p.children)
    (hh : p.style.get "height" = none) (ho : p.style.get "overflow" = none) :
    IsHiddenWrapper (Element.div ⟨(styleBounded h).spread p.style, p.rest, c⟩) h p.children := by
  refine ⟨_, rfl, ?_, ?_, hc⟩
  · simp [Obj.get_spread, hh, get_styleBounded]
  · simp [Obj.get_spread, ho, get_styleBounded]

theorem isHiddenWrapper_hidden (p : Props) (h : ℚ) (c : Content)
    (hc : c = Content.children p.children ∨ c = Content.heightReporter p.children)
    (hh : p.style.get "height" = none) (ho : p.style.get "overflow" = none) :
    IsHiddenWrapper (Element.div ⟨(styleHidden h).spread p.style, p.rest, c⟩) h p.children := by
  refine ⟨_, rfl, ?_, ?_, hc⟩
  · simp [Obj.get_spread, hh, get_styleHidden]
  · simp [Obj.get_spread, ho, get_styleHidden]

/-- C4, as stated, fails: in fixed mode with `keepCollapsedContent`, a closed panel at the
tick 1/32 (whose one-decimal string is "0.0") is rendered with height 1/32, not 0. -/
theorem fixed_tick_keeps_interpolated_height :
    stringHeight (1 / 32) = "0.0" ∧
    (tick (updateProps (firstRender keepFixedOpen).1 keepFixedClosed false).1 (1 / 32)).2 =
      Element.div ⟨styleHidden (1 / 32), Obj.empty, Content.children "content"⟩ ∧
    (styleHidden (1 / 32)).get "height" = some (StyleValue.num (1 / 32)) ∧
    ¬ IsHiddenWrapper
      (tick (updateProps (firstRender keepFixedOpen).1 keepFixedClosed false).1 (1 / 32)).2
      0 "content" := by
  have h2 : (tick (updateProps (firstRender keepFixedOpen).1 keepFixedClosed false).1
      (1 / 32)).2 =
      Element.div ⟨styleHidden (1 / 32), Obj.empty, Content.children "content"⟩ := by
    decide!
  refine ⟨by decide!, h2, by decide!, ?_⟩
  rw [h2]
  rintro ⟨d, hd, hh, _⟩
  injection hd with hd
  subst hd
  exact absurd hh (by decide!)

/-- C4, amended: for a closed panel whose style has no `height` or `overflow` key, in the
static phase with `state.height > -1` and at an animated tick whose one-decimal string is
"0.0", the output is null if `keepCollapsedContent` is false and otherwise a wrapper with
height 0 and hidden overflow that holds the children; at a fixed-mode tick whose string is
"0.0" the output is null if `keepCollapsedContent` is false and otherwise a wrapper with
hidden overflow whose height is the interpolated height itself. -/
theorem collapsed_render (self : Inst) (p : Props) (cur : String) (v : ℚ)
    (hclosed : p.isOpened = false)
    (hh : p.style.get "height" = none) (ho : p.style.get "overflow" = none) :
    (self.props = p → ¬ (p.fixedHeight > -1) → self.renderStatic = true →
        self.state.height > -1 →
      (p.keepCollapsedContent = false → (render self).2 = Element.null) ∧
      (p.keepCollapsedContent = true → IsHiddenWrapper (render self).2 0 p.children)) ∧
    (stringHeight v = "0.0" →
      (p.keepCollapsedContent = false → (animatedChild p cur self v).2 = Element.null) ∧
      (p.keepCollapsedContent = true →
        IsHiddenWrapper (animatedChild p cur self v).2 0 p.children)) ∧
    (stringHeight v = "0.0" →
      (p.keepCollapsedContent = false → (fixedChild p self v).2 = Element.null) ∧
      (p.keepCollapsedContent = true →
        IsHiddenWrapper (fixedChild p self v).2 v p.children)) := by
  refine ⟨?_, ?_, ?_⟩
  · intro hp hf hr hs
    subst hp
    constructor
    · intro hk
      simp [render, hf, hr, hs, hclosed, hk]
    · intro hk
      have : (render self).2 = Element.div ⟨(styleBounded 0).spread self.props.style,
          self.props.rest, Content.heightReporter self.props.children⟩ := by
        simp [render, hf, hr, hs, hclosed, hk]
      rw [this]
      exact isHiddenWrapper_bounded _ 0 _ (Or.inr rfl) hh ho
  · intro hv
    constructor
    · intro hk
      simp [animatedChild, hv, hclosed, hk]
    · intro hk
      have : (animatedChild p cur self v).2 = Element.div ⟨(styleBounded 0).spread p.style,
          p.rest, Content.heightReporter p.children⟩ := by
        simp [animatedChild, hv, hclosed, hk]
      rw [this]
      exact isHiddenWrapper_bounded _ 0 _ (Or.inr rfl) hh ho
  · intro hv
    constructor
    · intro hk
      simp [fixedChild, hv, hclosed, hk, stringHeight_zero]
    · intro hk
      have : (fixedChild p self v).2 = Element.div ⟨(styleHidden v).spread p.style,
          p.rest, Content.children p.children⟩ := by
        simp [fixedChild, hv, hclosed, hk, stringHeight_zero]
      rw [this]
      exact isHiddenWrapper_hidden _ v _ (Or.inl rfl) hh ho

/-- C4, amended, at a concrete input: the fixed-mode tick 1/32 of a closed panel that keeps
its content. -/
theorem collapsed_render_witness :
    IsHiddenWrapper (fixedChild keepFixedClosed (mount keepFixedClosed) (1 / 32)).2 (1 / 32)
      keepFixedClosed.children :=
  ((collapsed_render (mount keepFixedClosed) keepFixedClosed "0.0" (1 / 32)
    (by decide!) (by decide!) (by decide!)).2.2 (by decide!)).2 (by decide!)

theorem callerStyleWins_spread (style computed : Style) (a : Obj String) (c : Content)
    (h1 : ∀ k, computed.get k ≠ none → k = "height" ∨ k = "overflow")
    (h2 : computed.get "height" ≠ none) :
    CallerStyleWins style ⟨computed.spread style, a, c⟩ :=
  ⟨computed, h1, h2, fun k val h => Obj.get_spread_of_some _ _ k val h,
    fun k h => Obj.get_spread_of_none _ _ k h⟩

theorem callerStyleWins_bounded (style : Style) (h : ℚ) (a : Obj String) (c : Content) :
    CallerStyleWins style ⟨(styleBounded h).spread style, a, c⟩ := by
  apply callerStyleWins_spread
  · intro k hk
    rw [get_styleBounded] at hk
    by_cases h1 : k = "overflow"
    · exact Or.inr h1
    · by_cases h2 : k = "height"
      · exact Or.inl h2
      · simp [h1, h2] at hk
  · simp [get_styleBounded]

theorem callerStyleWins_hidden (style : Style) (h : ℚ) (a : Obj String) (c : Content) :
    CallerStyleWins style ⟨(styleHidden h).spread style, a, c⟩ := by
  apply callerStyleWins_spread
  · intro k hk
    rw [get_styleHidden] at hk
    by_cases h1 : k = "overflow"
    · exact Or.inr h1
    · by_cases h2 : k = "height"
      · exact Or.inl h2
      · simp [h1, h2] at hk
  · simp [get_styleHidden]

theorem callerStyleWins_auto (style : Style) (a : Obj String) (c : Content) :
    CallerStyleWins style ⟨styleAuto.spread style, a, c⟩ := by
  apply callerStyleWins_spread
  · intro k hk
    rw [get_styleAuto] at hk
    by_cases h2 : k = "height"
    · exact Or.inl h2
    · simp [h2] at hk
  · simp [get_styleAuto]

theorem animatedChild_style (p : Props) (cur : String) (live : Inst) (v : ℚ) (d : Div)
    (hd : (animatedChild p cur live v).2 = Element.div d) : CallerStyleWins p.style d := by
  unfold animatedChild at hd
  simp only at hd
  split at hd
  · split at hd
    · exact Element.noConfusion hd
    · injection hd with hd
      subst hd
      exact callerStyleWins_bounded _ _ _ _
  · injection hd with hd
    subst hd
    split
    · exact callerStyleWins_auto _ _ _
    · exact callerStyleWins_bounded _ _ _ _

theorem fixedChild_style (p : Props) (live : Inst) (v : ℚ) (d : Div)
    (hd : (fixedChild p live v).2 = Element.div d) : CallerStyleWins p.style d := by
  unfold fixedChild at hd
  simp only at hd
  split at hd
  · exact Element.noConfusion hd
  · injection hd with hd
    subst hd
    exact callerStyleWins_hidden _ _ _ _

/-- The shapes of what `render` returns. -/
theorem render_shape (self : Inst) :
    (render self).2 = Element.null ∨
    (∃ d, (render self).2 = Element.div d ∧ CallerStyleWins self.props.style d) ∨
    (∃ a b c d, (render self).2 = Element.motion a b c (ChildFn.static d) ∧
      CallerStyleWins self.props.style d) ∨
    (∃ a b c cur, (render self).2 = Element.motion a b c (ChildFn.animated self.props cur)) ∨
    (∃ a b c, (render self).2 = Element.motion a b c (ChildFn.fixed self.props)) := by
  unfold render renderFixed
  by_cases hf : self.props.fixedHeight > -1
  · simp only [hf, if_true]
    by_cases hr : self.renderStatic = true
    · simp only [hr, if_true]
      by_cases hk : (!self.props.keepCollapsedContent && !self.props.isOpened) = true
      · simp only [hk, if_true]
        exact Or.inl trivial
      · simp only [hk]
        exact Or.inr (Or.inl ⟨_, rfl, callerStyleWins_hidden _ _ _ _⟩)
    · simp only [hr]
      exact Or.inr (Or.inr (Or.inr (Or.inr ⟨_, _, _, rfl⟩)))
  · simp only [hf, if_false]
    by_cases hr : self.renderStatic = true
    · simp only [hr, if_true]
      by_cases hc : (!self.props.isOpened && decide (self.state.height > -1)) = true
      · simp only [hc, if_true]
        by_cases hk : (!self.props.keepCollapsedContent) = true
        · simp only [hk, if_true]
          exact Or.inl trivial
        · simp only [hk]
          exact Or.inr (Or.inl ⟨_, rfl, callerStyleWins_bounded _ _ _ _⟩)
      · simp only [hc]
        refine Or.inr (Or.inr (Or.inl ⟨_, _, _, _, rfl, ?_⟩))
        split
        · exact callerStyleWins_auto _ _ _
        · exact callerStyleWins_hidden _ _ _ _
    · simp only [hr]
      exact Or.inr (Or.inr (Or.inr (Or.inl ⟨_, _, _, _, rfl⟩)))

/-- C5, as stated, fails: with the caller style `{height: 7}` the collapsed wrapper (computed
height 0) has height 7. -/
theorem caller_height_overrides_computed :
    (reportHeight (firstRender styledClosed).1 120).1.output =
      Element.div ⟨(styleBounded 0).spread styledClosed.style, Obj.empty,
        Content.heightReporter "content"⟩ ∧
    ((styleBounded 0).spread styledClosed.style).get "height" = some (StyleValue.num 7) ∧
    (styleBounded 0).get "height" = some (StyleValue.num 0) := by
  decide!

/-- C5, amended: the style of every wrapper that `render` returns or that the child
function of its `Motion` paints at a tick is a computed style (a `height`, and at most an
`overflow` besides) overwritten by the caller style: every key of the caller style has the
caller value, also `height` and `overflow`, and every other key has the computed value. -/
theorem wrapper_style_caller_wins (self live : Inst) (v : ℚ) (d : Div)
    (hd : (tick ⟨live, (render self).2⟩ v).2 = Element.div d) :
    CallerStyleWins self.props.style d := by
  rcases render_shape self with h | ⟨d0, h, hw⟩ | ⟨a, b, c, d0, h, hw⟩ | ⟨a, b, c, cur, h⟩ |
      ⟨a, b, c, h⟩
  · rw [h] at hd
    exact Element.noConfusion hd
  · rw [h] at hd
    simp only [tick] at hd
    injection hd with hd
    subst hd
    exact hw
  · rw [h] at hd
    simp only [tick, ChildFn.call] at hd
    injection hd with hd
    subst hd
    exact hw
  · rw [h] at hd
    exact animatedChild_style _ _ _ _ _ hd
  · rw [h] at hd
    exact fixedChild_style _ _ _ _ hd

/-- C5, amended, at a concrete input: the collapsed wrapper of the counterexample. -/
theorem wrapper_style_caller_wins_witness :
    CallerStyleWins (reportHeight (firstRender styledClosed).1 120).1.inst.props.style
      ⟨(styleBounded 0).spread styledClosed.style, Obj.empty,
        Content.heightReporter "content"⟩ :=
  wrapper_style_caller_wins (reportHeight (firstRender styledClosed).1 120).1.inst
    (reportHeight (firstRender styledClosed).1 120).1.inst 0 _ (by decide!)

/-! ## The render phase -/

theorem onHeightReady_renderStatic (self : Inst) (h : ℚ) :
    (onHeightReady self h).1.renderStatic = self.renderStatic := rfl

theorem animatedChild_renderStatic (p : Props) (cur : String) (self : Inst) (v : ℚ) :
    (animatedChild p cur self v).1.renderStatic = self.renderStatic := by
  unfold animatedChild
  simp only
  split
  · split <;> rfl
  · rfl

theorem fixedChild_renderStatic (p : Props) (self : Inst) (v : ℚ) :
    (fixedChild p self v).1.renderStatic = self.renderStatic := by
  unfold fixedChild
  simp only
  split <;> rfl

theorem call_renderStatic (f : ChildFn) (self : Inst) (v : ℚ) :
    (f.call self v).1.renderStatic = self.renderStatic := by
  cases f with
  | static d => rfl
  | animated p cur => exact animatedChild_renderStatic p cur self v
  | fixed p => exact fixedChild_renderStatic p self v

theorem tick_renderStatic (m : Mounted) (v : ℚ) :
    (tick m v).1.inst.renderStatic = m.inst.renderStatic := by
  unfold tick
  split
  · exact call_renderStatic _ _ _
  · rfl

theorem updateProps_renderStatic (m : Mounted) (nextProps : Props) (refsChanged : Bool)
    (h : m.inst.renderStatic = false) :
    (updateProps m nextProps refsChanged).1.inst.renderStatic = false := by
  unfold updateProps
  simp only
  split
  · exact (render_frame _).2.2 h
  · exact h

theorem reportHeight_renderStatic (m : Mounted) (height : ℚ)
    (h : m.inst.renderStatic = false) :
    (reportHeight m height).1.inst.renderStatic = false := by
  unfold reportHeight
  simp only
  split
  · exact (render_frame _).2.2 h
  · exact h

theorem step_renderStatic (m : Mounted) (op : Op) (h : m.inst.renderStatic = false) :
    (step m op).1.inst.renderStatic = false := by
  cases op with
  | receiveProps nextProps refsChanged => exact updateProps_renderStatic m nextProps refsChanged h
  | heightReport height => exact reportHeight_renderStatic m height h
  | tick height => exact (tick_renderStatic m height).trans h

theorem run_renderStatic (ops : List Op) :
    ∀ m : Mounted, m.inst.renderStatic = false → (run m ops).1.inst.renderStatic = false := by
  induction ops with
  | nil => intro m h; exact h
  | cons op ops ih => intro m h; exact ih _ (step_renderStatic m op h)

theorem render_leaves_static (self : Inst)
    (h : self.props.fixedHeight > -1 ∨ self.state.height > -1) :
    (render self).1.renderStatic = false := by
  by_cases hf : self.props.fixedHeight > -1
  · unfold render
    simp only [hf, if_true]
    exact (renderFixed_frame self).2.2
  · have hh : self.state.height > -1 := h.resolve_left hf
    cases hr : self.renderStatic with
    | false => exact (render_frame self).2.2 hr
    | true =>
      unfold render
      simp only [hf, if_false, hr, hh]
      by_cases ho : self.props.isOpened = true
      · simp [ho]
      · by_cases hk : self.props.keepCollapsedContent = true
        · simp [ho, hk]
        · simp [ho, hk]

/-- C6: `this.renderStatic` is true on mount; a render in fixed mode or with
`state.height > -1` sets it to false; and once it is false, no sequence of prop changes,
height reports and interpolation ticks (with the renders they cause) sets it back. -/
theorem renderStatic_never_reverts :
    (∀ p : Props, (mount p).renderStatic = true) ∧
    (∀ self : Inst, (self.props.fixedHeight > -1 ∨ self.state.height > -1) →
      (render self).1.renderStatic = false) ∧
    (∀ (m : Mounted) (ops : List Op), m.inst.renderStatic = false →
      (run m ops).1.inst.renderStatic = false) :=
  ⟨fun _ => rfl, render_leaves_static, fun m ops h => run_renderStatic ops m h⟩

/-- C6, at concrete inputs: an opened panel measured at 120, then closed, ticked,
measured again and reopened. -/
theorem renderStatic_never_reverts_witness :
    (render (onHeightReady (mount openProps) 120).1).1.renderStatic = false ∧
    (run (reportHeight (firstRender openProps).1 120).1
      [Op.receiveProps closedProps false, Op.tick 60, Op.heightReport 120, Op.tick 0,
        Op.receiveProps openProps false]).1.inst.renderStatic = false :=
  ⟨renderStatic_never_reverts.2.1 (onHeightReady (mount openProps) 120).1 (Or.inr (by decide!)),
   renderStatic_never_reverts.2.2 _ _ (by decide!)⟩

/-! ## The format of `stringHeight` -/

theorem toDigitsCore_append (fuel : ℕ) : ∀ (n : ℕ) (acc : List Char),
    Nat.toDigitsCore 10 fuel n acc = Nat.toDigitsCore 10 fuel n [] ++ acc := by
  induction fuel with
  | zero => intro n acc; simp [Nat.toDigitsCore]
  | succ f ih =>
    intro n acc
    simp only [Nat.toDigitsCore]
    by_cases h : n / 10 = 0
    · simp [h]
    · simp only [h, if_false]
      rw [ih (n / 10) (Nat.digitChar (n % 10) :: acc), ih (n / 10) [Nat.digitChar (n % 10)]]
      simp

theorem toDigitsCore_fuel (f1 : ℕ) : ∀ (f2 n : ℕ), n < f1 → n < f2 →
    Nat.toDigitsCore 10 f1 n [] = Nat.toDigitsCore 10 f2 n [] := by
  induction f1 with
  | zero => intro f2 n h1 _; exact absurd h1 (Nat.not_lt_zero n)
  | succ f ih =>
    intro f2 n h1 h2
    cases f2 with
    | zero => exact absurd h2 (Nat.not_lt_zero n)
    | succ g =>
      simp only [Nat.toDigitsCore]
      by_cases h : n / 10 = 0
      · simp [h]
      · simp only [h, if_false]
        have hlt : n / 10 < n := Nat.div_lt_self (by omega) (by decide)
        rw [toDigitsCore_append f, toDigitsCore_append g,
          ih g (n / 10) (by omega) (by omega)]

theorem toDigits_lt_ten (n : ℕ) (h : n < 10) : Nat.toDigits 10 n = [Nat.digitChar n] := by
  have h0 : n / 10 = 0 := Nat.div_eq_of_lt h
  simp [Nat.toDigits, Nat.toDigitsCore, h0, Nat.mod_eq_of_lt h]

theorem toDigits_ten_le (n : ℕ) (h : 10 ≤ n) :
    Nat.toDigits 10 n = Nat.toDigits 10 (n / 10) ++ [Nat.digitChar (n % 10)] := by
  have h0 : ¬ n / 10 = 0 := by
    omega
  have hlt : n / 10 < n := Nat.div_lt_self (by omega) (by decide)
  unfold Nat.toDigits
  rw [Nat.toDigitsCore]
  simp only [h0, if_false]
  rw [toDigitsCore_append, toDigitsCore_fuel n (n / 10 + 1) (n / 10) hlt (by omega)]

theorem toDigits_length_pos (n : ℕ) : 0 < (Nat.toDigits 10 n).length := by
  by_cases h : n < 10
  · rw [toDigits_lt_ten n h]; simp
  · rw [toDigits_ten_le n (by omega)]; simp

theorem fixedDigits_eq (n : ℕ) :
    fixedDigits n = Nat.toDigits 10 (n / 10) ++ ['.', Nat.digitChar (n % 10)] := by
  unfold fixedDigits
  by_cases h : n < 10
  · have h0 : n / 10 = 0 := Nat.div_eq_of_lt h
    have hm : n % 10 = n := Nat.mod_eq_of_lt h
    rw [h0, hm]
    by_cases hz : n = 0
    · subst hz; rfl
    · simp only [hz, if_false]
      rw [toDigits_lt_ten n h]
      rfl
  · have hge : 10 ≤ n := by omega
    have hz : ¬ n = 0 := by omega
    simp only [hz, if_false]
    rw [toDigits_ten_le n hge]
    have hl := toDigits_length_pos (n / 10)
    have hk : ¬ (Nat.toDigits 10 (n / 10) ++ [Nat.digitChar (n % 10)]).length ≤ 1 := by
      rw [List.length_append, List.length_singleton]; omega
    simp only [hk, if_false]
    simp


theorem mk_fixedDigits (n : ℕ) :
    String.mk (fixedDigits n) = Nat.repr (n / 10) ++ "." ++ Nat.repr (n % 10) := by
  rw [fixedDigits_eq]
  have hd : Nat.repr (n % 10) = String.mk [Nat.digitChar (n % 10)] := by
    have h := toDigits_lt_ten (n % 10) (Nat.mod_lt n (by decide))
    simp [Nat.repr, h, List.asString]
  rw [hd]
  simp only [Nat.repr, List.asString]
  apply String.ext
  simp only [String.data_append]
  simp

theorem stringHeight_of_nonneg (h : ℚ) (h0 : 0 ≤ h) (h1 : h < 10 ^ 21) :
    stringHeight h = String.mk (fixedDigits (nearestTenths h)) := by
  unfold stringHeight toFixed1 parseFloat
  have hm : max 0 h = h := max_eq_right h0
  rw [hm]
  have hneg : ¬ h < 0 := not_lt.mpr h0
  have hbig : ¬ (10 : ℚ) ^ 21 ≤ h := not_le.mpr h1
  simp only [hneg, hbig, if_false, List.nil_append]

theorem stringHeight_of_neg (h : ℚ) (h0 : h < 0) : stringHeight h = "0.0" := by
  have hm : max 0 (parseFloat h) = 0 := max_eq_left (le_of_lt h0)
  have : stringHeight h = stringHeight 0 := by
    unfold stringHeight
    rw [hm]
    rfl
  rw [this, stringHeight_zero]

theorem nearestTenths_bounds (h : ℚ) (h0 : 0 ≤ h) :
    10 * h - 1 / 2 < (nearestTenths h : ℚ) ∧ (nearestTenths h : ℚ) ≤ 10 * h + 1 / 2 := by
  have hf : 0 ≤ Int.floor (10 * h + 1 / 2) := Int.floor_nonneg.mpr (by linarith)
  have hc : ((nearestTenths h : ℕ) : ℤ) = Int.floor (10 * h + 1 / 2) := by
    unfold nearestTenths
    exact Int.toNat_of_nonneg hf
  have hq : (nearestTenths h : ℚ) = ((Int.floor (10 * h + 1 / 2) : ℤ) : ℚ) := by
    rw [← hc]; simp
  rw [hq]
  constructor
  · have := Int.lt_floor_add_one (10 * h + 1 / 2)
    linarith
  · exact Int.floor_le _

/-- C7, amended: for every `h` with `0 ≤ h < 10^21`, `stringHeight(h)` is the decimal
string of `h` rounded to one decimal place (the nearest tenth, the larger one at a tie):
the digits of a natural number `a`, a point and exactly one digit `d`, so it denotes a
number `≥ 0`; for every negative `h` it is "0.0". -/
theorem stringHeight_format (h : ℚ) :
    (0 ≤ h → h < 10 ^ 21 → ∃ a d : ℕ, d < 10 ∧
      stringHeight h = Nat.repr a ++ "." ++ Nat.repr d ∧
      10 * h - 1 / 2 < 10 * (a : ℚ) + (d : ℚ) ∧ 10 * (a : ℚ) + (d : ℚ) ≤ 10 * h + 1 / 2) ∧
    (h < 0 → stringHeight h = "0.0") := by
  refine ⟨?_, stringHeight_of_neg h⟩
  intro h0 h1
  refine ⟨nearestTenths h / 10, nearestTenths h % 10, Nat.mod_lt _ (by decide), ?_, ?_⟩
  · rw [stringHeight_of_nonneg h h0 h1, mk_fixedDigits]
  · have hn : 10 * ((nearestTenths h / 10 : ℕ) : ℚ) + ((nearestTenths h % 10 : ℕ) : ℚ) =
        (nearestTenths h : ℚ) := by
      have := Nat.div_add_mod (nearestTenths h) 10
      exact_mod_cast this
    rw [hn]
    exact nearestTenths_bounds h h0

/-- C7, as stated, fails: `toFixed` switches to exponential notation from `10^21` on, where
the string has no decimal point. -/
theorem stringHeight_huge : stringHeight (10 ^ 21) = "1e+21" := by decide!

/-- C7, amended, at the concrete inputs 120 and -3. -/
theorem stringHeight_format_witness :
    (∃ a d : ℕ, d < 10 ∧ stringHeight 120 = Nat.repr a ++ "." ++ Nat.repr d ∧
      10 * (120 : ℚ) - 1 / 2 < 10 * (a : ℚ) + (d : ℚ) ∧
      10 * (a : ℚ) + (d : ℚ) ≤ 10 * 120 + 1 / 2) ∧
    stringHeight (-3) = "0.0" :=
  ⟨(stringHeight_format 120).1 (by norm_num) (by norm_num),
   (stringHeight_format (-3)).2 (by norm_num)⟩

/-! ## Scenarios: mounting closed, mounting opened, fixed mode -/

theorem max_zero_neg_one : max (0 : ℚ) (-1) = 0 := by norm_num

/-- C8, as stated, fails: the first render of a panel mounted closed with the default
props is not null but a `Motion` with the constant height 0 whose child is a hidden
wrapper of height 0 around the `HeightReporter`. -/
theorem first_render_closed_is_not_null :
    (firstRender closedProps).1.output =
      Element.motion 0 (MotionHeight.instant 0) none
        (ChildFn.static ⟨styleHidden 0, Obj.empty, Content.heightReporter "content"⟩) ∧
    (firstRender closedProps).1.output ≠ Element.null := by
  decide!

/-- C8, amended: on mount with `isOpened` false, `fixedHeight` -1 and
`keepCollapsedContent` false, the first render returns a `Motion` with the constant height
0 (no spring) whose child is a wrapper `{overflow: hidden, height: 0}` (overwritten by the
caller style) around the `HeightReporter`, and the `onHeightReady` prop has not been called.
The first height report, whatever it is, sets `state.height` to 0, invokes the prop once
with 0, and the render it causes returns null. -/
theorem first_render_closed (p : Props) (hc : p.isOpened = false) (hf : p.fixedHeight = -1)
    (hk : p.keepCollapsedContent = false) :
    firstRender p =
      (⟨mount p, Element.motion 0 (MotionHeight.instant 0) p.onRest
        (ChildFn.static ⟨(styleHidden 0).spread p.style, p.rest,
          Content.heightReporter p.children⟩)⟩, []) ∧
    ∀ h : ℚ, reportHeight (firstRender p).1 h =
      (⟨{ mount p with state := { height := 0, isOpenedChanged := false },
                       renderStatic := false }, Element.null⟩, [0]) := by
  have hnf : ¬ (p.fixedHeight > -1) := by rw [hf]; norm_num
  have h1 : firstRender p =
      (⟨mount p, Element.motion 0 (MotionHeight.instant 0) p.onRest
        (ChildFn.static ⟨(styleHidden 0).spread p.style, p.rest,
          Content.heightReporter p.children⟩)⟩, []) := by
    simp [firstRender, render, mount, componentWillMount, getInitialState, hnf, hc,
      max_zero_neg_one]
  refine ⟨h1, ?_⟩
  intro h
  rw [h1]
  simp [reportHeight, onHeightReady, shouldComponentUpdate, render, mount, componentWillMount,
    getInitialState, componentDidUpdate, hnf, hc, hk]

/-- C8, amended, at a concrete input: the default closed panel, measured at 120. -/
theorem first_render_closed_witness :
    reportHeight (firstRender closedProps).1 120 =
      (⟨{ mount closedProps with state := { height := 0, isOpenedChanged := false },
                                 renderStatic := false }, Element.null⟩, [0]) :=
  (first_render_closed closedProps (by decide!) (by decide!) (by decide!)).2 120

/-- C9: for every `h ≥ 0`, after mounting with `isOpened` true and `fixedHeight` -1 the
first render is a `Motion` with the constant height 0 (no spring) whose child is the static
wrapper `{height: auto}` (overwritten by the caller style, so `height` is `auto` when the
caller gives none) and nothing has been reported; when the first measurement `h` arrives,
`this.height` becomes `stringHeight(h)`, `state.height` becomes `h` and the `onHeightReady`
prop is invoked exactly once, with `h`; a second report of `h` does not invoke it. -/
theorem first_open_render_and_report (p : Props) (h : ℚ) (ho : p.isOpened = true)
    (hf : p.fixedHeight = -1) (h0 : 0 ≤ h) :
    (firstRender p =
      (⟨mount p, Element.motion 0 (MotionHeight.instant 0) p.onRest
        (ChildFn.static ⟨styleAuto.spread p.style, p.rest,
          Content.heightReporter p.children⟩)⟩, [])) ∧
    (p.style.get "height" = none →
      (styleAuto.spread p.style).get "height" = some (StyleValue.str "auto")) ∧
    (reportHeight (firstRender p).1 h).1.inst.height = stringHeight h ∧
    (reportHeight (firstRender p).1 h).1.inst.state.height = h ∧
    (reportHeight (firstRender p).1 h).2 = [h] ∧
    (reportHeight (reportHeight (firstRender p).1 h).1 h).2 = [] := by
  have hnf : ¬ (p.fixedHeight > -1) := by rw [hf]; norm_num
  have hne : ¬ ((-1 : ℚ) = h) := by intro e; rw [← e] at h0; norm_num at h0
  have hgt : h > -1 := by linarith
  have h1 : firstRender p =
      (⟨mount p, Element.motion 0 (MotionHeight.instant 0) p.onRest
        (ChildFn.static ⟨styleAuto.spread p.style, p.rest,
          Content.heightReporter p.children⟩)⟩, []) := by
    simp [firstRender, render, mount, componentWillMount, getInitialState, hnf, ho,
      max_zero_neg_one]
  have h2 : reportHeight (firstRender p).1 h =
      (⟨{ props := p, state := { height := h, isOpenedChanged := false },
          height := stringHeight h, renderStatic := false },
        Element.motion (max 0 h) (MotionHeight.instant (max 0 h)) p.onRest
          (ChildFn.static ⟨styleAuto.spread p.style, p.rest,
            Content.heightReporter p.children⟩)⟩, [h]) := by
    rw [h1]
    simp [reportHeight, onHeightReady, shouldComponentUpdate, render, mount,
      componentWillMount, getInitialState, componentDidUpdate, hnf, ho, hne, hgt]
  refine ⟨h1, ?_, ?_, ?_, ?_, ?_⟩
  · intro hs
    rw [Obj.get_spread_of_none _ _ _ hs, get_styleAuto]
    simp
  · rw [h2]
  · rw [h2]
  · rw [h2]
  · rw [h2]
    simp [reportHeight, onHeightReady, shouldComponentUpdate, ho]

/-- C9, at the concrete input `h = 120`. -/
theorem first_open_render_and_report_witness :
    (reportHeight (firstRender openProps).1 120).2 = [120] ∧
    (reportHeight (reportHeight (firstRender openProps).1 120).1 120).2 = [] :=
  ⟨(first_open_render_and_report openProps 120 (by decide!) (by decide!) (by norm_num)).2.2.2.2.1,
   (first_open_render_and_report openProps 120 (by decide!) (by decide!) (by norm_num)).2.2.2.2.2⟩

/-- C10, as stated, fails: with `fixedHeight = -1/2` (which is above -1, so fixed mode is
on) the render after opening gives a spring toward 0, not toward `fixedHeight`. -/
theorem fixed_spring_target_is_clamped :
    fixedNegativeOpen.fixedHeight > -1 ∧
    (updateProps (firstRender fixedNegativeClosed).1 fixedNegativeOpen false).1.output =
      Element.motion 0 (MotionHeight.spring 0 (Obj.empty.set "precision" PRECISION)) none
        (ChildFn.fixed fixedNegativeOpen) ∧
    (0 : ℚ) ≠ fixedNegativeOpen.fixedHeight := by
  decide!

/-- C10, amended: with `fixedHeight > -1`, the first render returns no `Motion` but a plain
wrapper `{overflow: hidden, height: isOpened ? fixedHeight : 0}` (overwritten by the
caller style), or null when the panel is closed and `keepCollapsedContent` is false; and on
every later render (`renderStatic` false) that follows a change of `isOpened`, the `Motion`
gets a spring toward `max(0, fixedHeight)` when opened and toward 0 when closed, whatever
the committed height string is. -/
theorem fixed_mode_render (p : Props) (hf : p.fixedHeight > -1) :
    ((render (mount p)).2 =
      if p.keepCollapsedContent = false ∧ p.isOpened = false then Element.null
      else Element.div ⟨(styleHidden (if p.isOpened then p.fixedHeight else 0)).spread p.style,
        p.rest, Content.children p.children⟩) ∧
    (∀ (m : Mounted) (prev : Props) (refsChanged : Bool), m.inst.props = prev →
      m.inst.renderStatic = false → p.isOpened ≠ prev.isOpened →
      ∃ config, (updateProps m p refsChanged).1.output =
        Element.motion (if p.isOpened then 0 else p.fixedHeight)
          (MotionHeight.spring (if p.isOpened then max 0 p.fixedHeight else 0) config) none
          (ChildFn.fixed p)) := by
  constructor
  · by_cases hk : p.keepCollapsedContent = false ∧ p.isOpened = false
    · rw [if_pos hk]
      simp [render, renderFixed, mount, componentWillMount, hf, hk.1, hk.2]
    · rw [if_neg hk]
      have hk2 : ¬ ((!p.keepCollapsedContent && !p.isOpened) = true) := by
        intro hc
        apply hk
        simpa using hc
      simp [render, renderFixed, mount, componentWillMount, hf, hk2]
  · intro m prev refsChanged hprev hrs hne
    subst hprev
    have hp : m.inst.props ≠ p := fun e => hne (by rw [e])
    have hs : shouldComponentUpdate m.inst p
        (componentWillReceiveProps m.inst p) refsChanged = true := by
      simp [shouldComponentUpdate, hp]
    have hb : (p.isOpened != m.inst.props.isOpened) = true := by
      simpa using hne
    have hnf : ¬ (p.fixedHeight = -1) := by
      intro e; rw [e] at hf; norm_num at hf
    unfold updateProps
    simp only [hs, if_true]
    unfold render renderFixed
    simp only [hf, if_true, hrs, Bool.false_eq_true, if_false]
    rw [getMotionHeight_eq]
    simp only [componentWillReceiveProps, hb, hnf, and_false, or_false, Bool.true_eq_false,
      false_and, if_false]
    exact ⟨_, rfl⟩

/-- C10, amended, at concrete inputs: `fixedHeight = 50` and `isOpened` going
false, true, false gives the spring targets 50 and then 0. -/
theorem fixed_mode_render_witness :
    (∃ config, (updateProps (firstRender fixedClosed).1 fixedOpen false).1.output =
      Element.motion (if fixedOpen.isOpened then 0 else fixedOpen.fixedHeight)
        (MotionHeight.spring (if fixedOpen.isOpened then max 0 fixedOpen.fixedHeight else 0)
          config) none (ChildFn.fixed fixedOpen)) ∧
    (run (firstRender fixedClosed).1 [Op.receiveProps fixedOpen false]).1.output =
      Element.motion 0 (MotionHeight.spring 50 (Obj.empty.set "precision" PRECISION)) none
        (ChildFn.fixed fixedOpen) ∧
    (run (firstRender fixedClosed).1
        [Op.receiveProps fixedOpen false, Op.receiveProps fixedClosed false]).1.output =
      Element.motion 50 (MotionHeight.spring 0 (Obj.empty.set "precision" PRECISION)) none
        (ChildFn.fixed fixedClosed) :=
  ⟨(fixed_mode_render fixedOpen (by decide!)).2 (firstRender fixedClosed).1 fixedClosed false
      (by decide!) (by decide!) (by decide!),
   by decide!, by decide!⟩

/-! ## The height reporting bridge -/

/-- C11, as stated, fails: for a panel closed in the animated phase (opened, measured at
120, then closed; the closing already reported 0), two identical reports of 120 under an
unchanged `isOpened` invoke the `onHeightReady` prop twice, each time with 0. -/
theorem identical_reports_invoke_twice :
    closedAfterOpen.inst.props.isOpened = false ∧
    (run closedAfterOpen [Op.heightReport 120, Op.heightReport 120]).1.inst.props.isOpened
      = false ∧
    (run closedAfterOpen [Op.heightReport 120, Op.heightReport 120]).2 = [0, 0] := by
  decide!

/-- The invocations of a height report. -/
theorem onHeightReady_calls (self : Inst) (h : ℚ) :
    (onHeightReady self h).2 =
      if self.state.height ≠ (if self.props.isOpened then h else 0) then
        [if self.props.isOpened then h else 0]
      else [] := rfl

theorem reportHeight_opened (m : Mounted) (h : ℚ) (ho : m.inst.props.isOpened = true) :
    (reportHeight m h).1.inst.props = m.inst.props ∧
    (reportHeight m h).1.inst.state.height = h ∧
    (reportHeight m h).2 = if m.inst.state.height ≠ h then [h] else [] := by
  unfold reportHeight
  simp only
  by_cases hs : shouldComponentUpdate m.inst m.inst.props (onHeightReady m.inst h).1.state
      false = true
  · simp only [hs, if_true]
    refine ⟨?_, ?_, ?_⟩
    · rw [(render_frame _).1]; rfl
    · rw [(render_frame _).2.1]
      simp [onHeightReady, ho]
    · have hc : componentDidUpdate (render (onHeightReady m.inst h).1).1 m.inst.props = [] := by
        unfold componentDidUpdate
        rw [(render_frame _).1]
        simp [onHeightReady]
      rw [hc, List.append_nil, onHeightReady_calls]
      simp [ho]
  · simp only [hs]
    refine ⟨rfl, ?_, ?_⟩
    · simp [onHeightReady, ho]
    · rw [onHeightReady_calls]
      simp [ho]

theorem run_identical_reports_settled (n : ℕ) : ∀ (m : Mounted) (h : ℚ),
    m.inst.props.isOpened = true → m.inst.state.height = h →
    (run m (List.replicate n (Op.heightReport h))).2 = [] := by
  induction n with
  | zero => intro m h _ _; rfl
  | succ n ih =>
    intro m h ho hs
    obtain ⟨h1, h2, h3⟩ := reportHeight_opened m h ho
    simp only [List.replicate_succ, run, step]
    rw [h3, ih (reportHeight m h).1 h (by rw [h1]; exact ho) h2]
    simp [hs]

theorem run_identical_reports (n : ℕ) (m : Mounted) (h : ℚ)
    (ho : m.inst.props.isOpened = true) :
    (run m (List.replicate n (Op.heightReport h))).2.length ≤ 1 := by
  cases n with
  | zero => simp [run]
  | succ n =>
    obtain ⟨h1, h2, h3⟩ := reportHeight_opened m h ho
    simp only [List.replicate_succ, run, step]
    rw [h3, run_identical_reports_settled n (reportHeight m h).1 h (by rw [h1]; exact ho) h2]
    split <;> simp

/-- C11, amended: the bridge `onHeightReady(h)` invokes the `onHeightReady` prop, with
`reported = (h if isOpened else 0)`, if and only if `reported` differs from
`this.state.height` as the previous report left it; hence for every sequence of identical
reports while `isOpened` is true (static or animated phase) the prop is invoked at most
once. -/
theorem bridge_reports_on_change (self : Inst) (h : ℚ) :
    ((onHeightReady self h).2 =
      if self.state.height ≠ (if self.props.isOpened then h else 0) then
        [if self.props.isOpened then h else 0]
      else []) ∧
    (∀ (m : Mounted) (n : ℕ), m.inst.props.isOpened = true →
      (run m (List.replicate n (Op.heightReport h))).2.length ≤ 1) :=
  ⟨rfl, fun m n ho => run_identical_reports n m h ho⟩

/-- C11, amended, at a concrete input: three reports of 120 to a panel mounted opened. -/
theorem bridge_reports_on_change_witness :
    (run (firstRender openProps).1 (List.replicate 3 (Op.heightReport 120))).2.length ≤ 1 :=
  (bridge_reports_on_change (mount openProps) 120).2 (firstRender openProps).1 3 (by decide!)

/-! ## Closed panels, the spring configuration, the flag and the bridge -/

/-- C13: if `isOpened` is false and `isOpenedChanged` is false, then for every height `h`,
every committed height string and every `fixedHeight`, `getMotionHeight(h)` is the instant
value 0, never a spring, whatever `h` is. -/
theorem closed_unchanged_is_instant (self : Inst) (h : ℚ)
    (hc : self.state.isOpenedChanged = false) (ho : self.props.isOpened = false) :
    getMotionHeight self h = MotionHeight.instant 0 := by
  rw [getMotionHeight_eq, if_pos (Or.inl ⟨hc, ho⟩)]
  simp [ho]

/-- C13, at a concrete input: a panel mounted closed, asked for the height 120. -/
theorem closed_unchanged_is_instant_witness :
    getMotionHeight (mount closedProps) 120 = MotionHeight.instant 0 :=
  closed_unchanged_is_instant (mount closedProps) 120 (by decide!) (by decide!)

/-- C14, as stated, fails: a caller `springConfig` with its own `precision` 1/100 gives a
spring whose precision is 1/100, not 1/2. -/
theorem caller_precision_overrides :
    getMotionHeight preciseReopening 120 =
      MotionHeight.spring 120
        ((Obj.empty.set "precision" PRECISION).spread
          ((Obj.empty.set "stiffness" 200).set "precision" (1 / 100))) ∧
    ((Obj.empty.set "precision" PRECISION).spread
        ((Obj.empty.set "stiffness" 200).set "precision" (1 / 100))).get "precision" =
      some (1 / 100) ∧
    (1 / 100 : ℚ) ≠ PRECISION := by
  decide!

/-- C14, amended: whenever `getMotionHeight` returns a spring, its configuration is
`{precision: 0.5}` overwritten by `springConfig`: every caller-supplied parameter is there
unchanged, also a caller-supplied `precision`; the precision is 0.5 when the caller gives
none; there is no other parameter; and the configuration is only `{precision: 0.5}` when
`springConfig` is unset. -/
theorem spring_config_merge (self : Inst) (h v : ℚ) (config : Obj ℚ)
    (hs : getMotionHeight self h = MotionHeight.spring v config) :
    (∀ c : Obj ℚ, self.props.springConfig = some c →
      (∀ k x, c.get k = some x → config.get k = some x) ∧
      (c.get "precision" = none → config.get "precision" = some PRECISION) ∧
      (∀ k, c.get k = none → k ≠ "precision" → config.get k = none)) ∧
    (self.props.springConfig = none → config = Obj.empty.set "precision" PRECISION) := by
  rw [getMotionHeight_eq] at hs
  by_cases hskip : (self.state.isOpenedChanged = false ∧ self.props.isOpened = false) ∨
      (self.height = (if self.props.isOpened then stringHeight h else "0.0") ∧
        self.props.fixedHeight = -1)
  · rw [if_pos hskip] at hs
    exact MotionHeight.noConfusion hs
  · rw [if_neg hskip] at hs
    injection hs with _ hcfg
    subst hcfg
    constructor
    · intro c hc
      rw [hc]
      refine ⟨?_, ?_, ?_⟩
      · intro k x hk
        exact Obj.get_spread_of_some _ _ k x hk
      · intro hk
        rw [Obj.get_spread_of_none _ _ _ hk, Obj.get_set]
        simp
      · intro k hk hne
        rw [Obj.get_spread_of_none _ _ _ hk, Obj.get_set, if_neg hne, Obj.get_empty]
    · intro hc
      rw [hc]

/-- C14, amended, at a concrete input: the caller-supplied stiffness 200 is in the
configuration of the spring. -/
theorem spring_config_merge_witness :
    ((Obj.empty.set "precision" PRECISION).spread
        ((Obj.empty.set "stiffness" 200).set "precision" (1 / 100))).get "stiffness" =
      some 200 :=
  ((spring_config_merge preciseReopening 120 120
    ((Obj.empty.set "precision" PRECISION).spread
      ((Obj.empty.set "stiffness" 200).set "precision" (1 / 100)))
    (by decide!)).1 ((Obj.empty.set "stiffness" 200).set "precision" (1 / 100))
      (by decide!)).1 "stiffness" 200 (by decide!)

/-- C16, as stated, fails: after opening a panel (`isOpenedChanged` becomes true), the
re-render caused by a height report alone still has `isOpenedChanged` true. -/
theorem flag_survives_height_report :
    (run (firstRender closedProps).1
      [Op.receiveProps openProps false, Op.heightReport 120]).1.inst.state.isOpenedChanged
      = true ∧
    (run (firstRender closedProps).1
      [Op.receiveProps openProps false, Op.heightReport 120]).1.inst.state.height = 120 := by
  decide!

/-- C16, amended: on every update with new props `componentWillReceiveProps` sets
`state.isOpenedChanged` to (next `isOpened` ≠ current `isOpened`), so it is false after a
props update in which `isOpened` did not change; a height report (with the re-render its
`setState` causes) and an interpolation tick leave it as it is, so it stays true until the
next props update. -/
theorem isOpenedChanged_updates (m : Mounted) :
    (∀ (nextProps : Props) (refsChanged : Bool),
      (updateProps m nextProps refsChanged).1.inst.state.isOpenedChanged =
        (nextProps.isOpened != m.inst.props.isOpened)) ∧
    (∀ h : ℚ, (reportHeight m h).1.inst.state.isOpenedChanged =
      m.inst.state.isOpenedChanged) ∧
    (∀ v : ℚ, (tick m v).1.inst.state.isOpenedChanged = m.inst.state.isOpenedChanged) := by
  refine ⟨?_, ?_, ?_⟩
  · intro nextProps refsChanged
    unfold updateProps
    simp only
    split
    · rw [(render_frame _).2.1]; rfl
    · rfl
  · intro h
    unfold reportHeight
    simp only
    split
    · rw [(render_frame _).2.1]; rfl
    · rfl
  · intro v
    unfold tick
    split
    · rename_i a b c child _
      cases child with
      | static d => rfl
      | animated p cur =>
        simp only [ChildFn.call, animatedChild]
        split
        · split <;> rfl
        · rfl
      | fixed p =>
        simp only [ChildFn.call, fixedChild]
        split <;> rfl
    · rfl

/-- C17: `onHeightReady(h)` sets `this.height` to `stringHeight(h)` if `renderStatic` and
`isOpened`, and otherwise leaves it; it sets `state.height` to `h` if `isOpened` or
`renderStatic` is false, and to 0 if the panel is closed and still static; it changes
neither `renderStatic` nor `isOpenedChanged` (nor the props). -/
theorem onHeightReady_effect (self : Inst) (h : ℚ) :
    (onHeightReady self h).1.height =
      (if self.renderStatic = true ∧ self.props.isOpened = true then stringHeight h
        else self.height) ∧
    (onHeightReady self h).1.state.height =
      (if self.props.isOpened = true ∨ self.renderStatic = false then h else 0) ∧
    (onHeightReady self h).1.renderStatic = self.renderStatic ∧
    (onHeightReady self h).1.state.isOpenedChanged = self.state.isOpenedChanged ∧
    (onHeightReady self h).1.props = self.props := by
  refine ⟨?_, ?_, rfl, rfl, rfl⟩
  · simp only [onHeightReady]
    by_cases h1 : self.renderStatic = true <;> by_cases h2 : self.props.isOpened = true <;>
      simp [h1, h2]
  · simp only [onHeightReady]
    by_cases h1 : self.renderStatic = true <;> by_cases h2 : self.props.isOpened = true <;>
      simp [h1, h2]

/-! ## Render and the tracker; the animated tick -/

/-- C15, as stated, fails: the first render of a panel mounted opened in fixed mode sets
`this.renderStatic` to false and `this.height` to "50.0", and a second render with the
same props and state returns another output. -/
theorem render_mutates_tracker :
    (mount fixedOpen).renderStatic = true ∧
    (render (mount fixedOpen)).1.renderStatic = false ∧
    (mount fixedOpen).height = "0.0" ∧
    (render (mount fixedOpen)).1.height = "50.0" ∧
    (render (mount fixedOpen)).1.props = (mount fixedOpen).props ∧
    (render (mount fixedOpen)).1.state = (mount fixedOpen).state ∧
    (render (render (mount fixedOpen)).1).2 ≠ (render (mount fixedOpen)).2 := by
  decide!

theorem render_of_animated (self : Inst) (hr : self.renderStatic = false) :
    (render self).1 = self := by
  unfold render renderFixed
  by_cases hf : self.props.fixedHeight > -1
  · simp [hf, hr]
  · simp [hf, hr]

theorem render_of_unmeasured (self : Inst) (hf : ¬ self.props.fixedHeight > -1)
    (hh : ¬ self.state.height > -1) : (render self).1 = self := by
  unfold render
  by_cases hr : self.renderStatic = true
  · simp [hf, hh, hr]
  · simp [hf, hh, hr]

theorem call_frame (f : ChildFn) (self : Inst) (v : ℚ) :
    (f.call self v).1.props = self.props ∧ (f.call self v).1.state = self.state ∧
      (f.call self v).1.renderStatic = self.renderStatic := by
  cases f with
  | static d => exact ⟨rfl, rfl, rfl⟩
  | animated p cur =>
    simp only [ChildFn.call, animatedChild]
    split
    · split <;> exact ⟨rfl, rfl, rfl⟩
    · exact ⟨rfl, rfl, rfl⟩
  | fixed p =>
    simp only [ChildFn.call, fixedChild]
    split <;> exact ⟨rfl, rfl, rfl⟩

theorem call_height (f : ChildFn) (self : Inst) (v : ℚ) :
    (∀ d, f = ChildFn.static d → (f.call self v).1.height = self.height) ∧
    ((∀ d, f ≠ ChildFn.static d) → (f.call self v).1.height = stringHeight v) := by
  cases f with
  | static d => exact ⟨fun _ _ => rfl, fun h => absurd rfl (h d)⟩
  | animated p cur =>
    refine ⟨fun d h => ChildFn.noConfusion h, fun _ => ?_⟩
    simp only [ChildFn.call, animatedChild]
    split
    · split <;> rfl
    · rfl
  | fixed p =>
    refine ⟨fun d h => ChildFn.noConfusion h, fun _ => ?_⟩
    simp only [ChildFn.call, fixedChild]
    split <;> rfl

/-- C15, amended: `render` (with `renderFixed`) leaves `this.props` and `this.state`
unchanged. It leaves the whole instance unchanged, `this.height` and `this.renderStatic`
included, when `renderStatic` is already false (rendering twice in a row then yields the
same output) and when neither `fixedHeight` nor `state.height` is above -1. The child
functions called at a tick leave the props, the state and `renderStatic` unchanged; the
static one leaves `this.height` too, the animated and the fixed one set it to
`stringHeight` of the interpolated height. -/
theorem render_tracker_effect (self : Inst) :
    ((render self).1.props = self.props ∧ (render self).1.state = self.state) ∧
    (self.renderStatic = false →
      (render self).1 = self ∧ render (render self).1 = render self) ∧
    (¬ self.props.fixedHeight > -1 → ¬ self.state.height > -1 → (render self).1 = self) ∧
    (∀ (f : ChildFn) (v : ℚ),
      (f.call self v).1.props = self.props ∧ (f.call self v).1.state = self.state ∧
      (f.call self v).1.renderStatic = self.renderStatic ∧
      (∀ d, f = ChildFn.static d → (f.call self v).1.height = self.height) ∧
      ((∀ d, f ≠ ChildFn.static d) → (f.call self v).1.height = stringHeight v)) := by
  refine ⟨⟨(render_frame self).1, (render_frame self).2.1⟩, ?_, render_of_unmeasured self, ?_⟩
  · intro hr
    have h := render_of_animated self hr
    exact ⟨h, by rw [h]⟩
  · intro f v
    exact ⟨(call_frame f self v).1, (call_frame f self v).2.1, (call_frame f self v).2.2,
      (call_height f self v).1, (call_height f self v).2⟩

/-- C15, amended, at a concrete input: the reopened panel, in the animated phase, is
rendered twice with the same output. -/
theorem render_tracker_effect_witness :
    (render reopening).1 = reopening ∧ render (render reopening).1 = render reopening :=
  (render_tracker_effect reopening).2.1 (by decide!)

/-- C19: in animated mode (`fixedHeight` -1, `renderStatic` false) `render` returns a
`Motion` whose child function, at every tick `v` that is not the collapsed case
(`isOpened` false and `stringHeight(v) = "0.0"`), paints a wrapper around the
`HeightReporter` whose computed style is `{height: auto}` exactly when `isOpened` is true
and `stringHeight(v)` equals `state.height.toFixed(1)`, and `{height: v, overflow: hidden}`
otherwise (the caller style is spread over it). -/
theorem animated_tick_style (self live : Inst) (v : ℚ) (hf : self.props.fixedHeight = -1)
    (hr : self.renderStatic = false)
    (hc : ¬ (self.props.isOpened = false ∧ stringHeight v = "0.0")) :
    (render self).2 =
      Element.motion (max 0 self.state.height) (getMotionHeight self self.state.height)
        self.props.onRest (ChildFn.animated self.props (toFixed1 self.state.height)) ∧
    (tick ⟨live, (render self).2⟩ v).2 =
      Element.div ⟨(if self.props.isOpened = true ∧
            stringHeight v = toFixed1 self.state.height
          then styleAuto else styleBounded v).spread self.props.style,
        self.props.rest, Content.heightReporter self.props.children⟩ := by
  have hnf : ¬ (self.props.fixedHeight > -1) := by rw [hf]; norm_num
  have h1 : (render self).2 =
      Element.motion (max 0 self.state.height) (getMotionHeight self self.state.height)
        self.props.onRest (ChildFn.animated self.props (toFixed1 self.state.height)) := by
    simp [render, hnf, hr, parseFloat]
  refine ⟨h1, ?_⟩
  rw [h1]
  simp only [tick, ChildFn.call, animatedChild]
  have hc2 : ¬ ((!self.props.isOpened && decide (stringHeight v = "0.0")) = true) := by
    intro h
    apply hc
    simpa using h
  simp only [hc2]
  by_cases ha : self.props.isOpened = true ∧ stringHeight v = toFixed1 self.state.height
  · simp [ha.1, ha.2]
  · have ha2 : ¬ ((self.props.isOpened && decide (stringHeight v = toFixed1 self.state.height))
        = true) := by
      intro h
      apply ha
      simpa using h
    simp [ha, ha2]

/-- C19, at concrete inputs: the reopened panel (measured height 120) at the ticks 60
and 120. -/
theorem animated_tick_style_witness :
    (tick ⟨reopening, (render reopening).2⟩ 60).2 =
      Element.div ⟨(if reopening.props.isOpened = true ∧
            stringHeight 60 = toFixed1 reopening.state.height
          then styleAuto else styleBounded 60).spread reopening.props.style,
        reopening.props.rest, Content.heightReporter reopening.props.children⟩ ∧
    (tick ⟨reopening, (render reopening).2⟩ 60).2 =
      Element.div ⟨styleBounded 60, Obj.empty, Content.heightReporter "content"⟩ ∧
    (tick ⟨reopening, (render reopening).2⟩ 120).2 =
      Element.div ⟨styleAuto, Obj.empty, Content.heightReporter "content"⟩ :=
  ⟨(animated_tick_style reopening reopening 60 (by decide!) (by decide!) (by decide!)).2,
   by decide!, by decide!⟩

/-! ## Clamping of heights -/

/-- C12, as stated, fails: at a negative interpolated height -3 the animated wrapper of an
opened panel has the height -3 in its style. -/
theorem negative_tick_is_painted :
    measuredTwice.inst.renderStatic = false ∧
    (tick measuredTwice (-3)).2 =
      Element.div ⟨styleBounded (-3), Obj.empty, Content.heightReporter "content"⟩ ∧
    (styleBounded (-3)).get "height" = some (StyleValue.num (-3)) := by
  decide!

theorem getMotionHeight_target_nonneg (self : Inst) (h : ℚ) :
    0 ≤ (getMotionHeight self h).target := by
  rw [getMotionHeight_eq]
  have hv : (0 : ℚ) ≤ if self.props.isOpened = true then max 0 h else 0 := by
    split
    · exact le_max_left 0 h
    · exact le_refl 0
  by_cases hskip : (self.state.isOpenedChanged = false ∧ self.props.isOpened = false) ∨
      (self.height = (if self.props.isOpened then stringHeight h else "0.0") ∧
        self.props.fixedHeight = -1)
  · rw [if_pos hskip]
    exact hv
  · rw [if_neg hskip]
    exact hv

/-- The numeric height of a wrapper style `computed.spread style` when `style` has no
`height`. -/
theorem height_of_spread (computed style : Style) (x : ℚ) (hs : style.get "height" = none)
    (h : (computed.spread style).get "height" = some (StyleValue.num x)) :
    computed.get "height" = some (StyleValue.num x) := by
  rwa [Obj.get_spread_of_none _ _ _ hs] at h

theorem height_of_bounded (style : Style) (a x : ℚ) (hs : style.get "height" = none)
    (h : ((styleBounded a).spread style).get "height" = some (StyleValue.num x)) : x = a := by
  have h2 := height_of_spread _ _ _ hs h
  rw [get_styleBounded] at h2
  simp at h2
  exact h2.symm

theorem height_of_hidden (style : Style) (a x : ℚ) (hs : style.get "height" = none)
    (h : ((styleHidden a).spread style).get "height" = some (StyleValue.num x)) : x = a := by
  have h2 := height_of_spread _ _ _ hs h
  rw [get_styleHidden] at h2
  simp at h2
  exact h2.symm

theorem height_of_auto (style : Style) (x : ℚ) (hs : style.get "height" = none)
    (h : (styleAuto.spread style).get "height" = some (StyleValue.num x)) : False := by
  have h2 := height_of_spread _ _ _ hs h
  rw [get_styleAuto] at h2
  simp at h2

/-- The numeric heights the animated child function paints. -/
theorem animatedChild_height (p : Props) (cur : String) (live : Inst) (v x : ℚ) (d : Div)
    (hs : p.style.get "height" = none)
    (hd : (animatedChild p cur live v).2 = Element.div d)
    (hx : d.style.get "height" = some (StyleValue.num x)) : x = 0 ∨ x = v := by
  unfold animatedChild at hd
  simp only at hd
  split at hd
  · split at hd
    · exact Element.noConfusion hd
    · injection hd with hd
      subst hd
      exact Or.inl (height_of_bounded _ _ _ hs hx)
  · injection hd with hd
    subst hd
    simp only at hx
    split at hx
    · exact (height_of_auto _ _ hs hx).elim
    · exact Or.inr (height_of_bounded _ _ _ hs hx)

/-- The numeric height the fixed child function paints. -/
theorem fixedChild_height (p : Props) (live : Inst) (v x : ℚ) (d : Div)
    (hs : p.style.get "height" = none)
    (hd : (fixedChild p live v).2 = Element.div d)
    (hx : d.style.get "height" = some (StyleValue.num x)) : x = v := by
  unfold fixedChild at hd
  simp only at hd
  split at hd
  · exact Element.noConfusion hd
  · injection hd with hd
    subst hd
    exact height_of_hidden _ _ _ hs hx

/-- The shapes of what `render` returns, with the numeric heights of its wrappers. -/
theorem render_heights (self : Inst) (hs : self.props.style.get "height" = none) :
    (render self).2 = Element.null ∨
    (∃ d, (render self).2 = Element.div d ∧
      ∀ x, d.style.get "height" = some (StyleValue.num x) →
        x = 0 ∨ (self.props.fixedHeight > -1 ∧ x = self.props.fixedHeight)) ∨
    (∃ a b c d, (render self).2 = Element.motion a b c (ChildFn.static d) ∧
      ∀ x, d.style.get "height" = some (StyleValue.num x) → x = 0) ∨
    (∃ a b c cur, (render self).2 = Element.motion a b c (ChildFn.animated self.props cur)) ∨
    (∃ a b c, (render self).2 = Element.motion a b c (ChildFn.fixed self.props)) := by
  unfold render renderFixed
  by_cases hf : self.props.fixedHeight > -1
  · simp only [hf, if_true]
    by_cases hr : self.renderStatic = true
    · simp only [hr, if_true]
      by_cases hk : (!self.props.keepCollapsedContent && !self.props.isOpened) = true
      · simp only [hk, if_true]
        exact Or.inl trivial
      · simp only [hk]
        refine Or.inr (Or.inl ⟨_, rfl, ?_⟩)
        intro x hx
        have := height_of_hidden _ _ _ hs hx
        by_cases ho : self.props.isOpened = true
        · rw [if_pos ho] at this
          exact Or.inr ⟨trivial, this⟩
        · rw [if_neg ho] at this
          exact Or.inl this
    · simp only [hr]
      exact Or.inr (Or.inr (Or.inr (Or.inr ⟨_, _, _, rfl⟩)))
  · simp only [hf, if_false]
    by_cases hr : self.renderStatic = true
    · simp only [hr, if_true]
      by_cases hc : (!self.props.isOpened && decide (self.state.height > -1)) = true
      · simp only [hc, if_true]
        by_cases hk : (!self.props.keepCollapsedContent) = true
        · simp only [hk, if_true]
          exact Or.inl trivial
        · simp only [hk]
          refine Or.inr (Or.inl ⟨_, rfl, ?_⟩)
          intro x hx
          exact Or.inl (height_of_bounded _ _ _ hs hx)
      · simp only [hc]
        refine Or.inr (Or.inr (Or.inl ⟨_, _, _, _, rfl, ?_⟩))
        intro x hx
        simp only at hx
        split at hx
        · exact (height_of_auto _ _ hs hx).elim
        · exact height_of_hidden _ _ _ hs hx
    · simp only [hr]
      exact Or.inr (Or.inr (Or.inr (Or.inl ⟨_, _, _, _, rfl⟩)))

/-- C12, amended: the target that `getMotionHeight` returns (instant or spring) is
non-negative for every input. The numeric height in the style of a rendered wrapper (caller
style without a `height`) is not clamped: it is 0, or the interpolated height of the tick
itself, or in fixed mode `fixedHeight` itself; so it is non-negative when the interpolated
height is and, in fixed mode, `fixedHeight` is. -/
theorem heights_nonneg (self live : Inst) (h v x : ℚ) (d : Div)
    (hs : self.props.style.get "height" = none)
    (hd : (tick ⟨live, (render self).2⟩ v).2 = Element.div d)
    (hx : d.style.get "height" = some (StyleValue.num x)) :
    0 ≤ (getMotionHeight self h).target ∧
    (x = 0 ∨ x = v ∨ (self.props.fixedHeight > -1 ∧ x = self.props.fixedHeight)) ∧
    (0 ≤ v → (self.props.fixedHeight > -1 → 0 ≤ self.props.fixedHeight) → 0 ≤ x) := by
  have key : x = 0 ∨ x = v ∨ (self.props.fixedHeight > -1 ∧ x = self.props.fixedHeight) := by
    rcases render_heights self hs with h1 | ⟨d0, h1, hw⟩ | ⟨a, b, c, d0, h1, hw⟩ |
        ⟨a, b, c, cur, h1⟩ | ⟨a, b, c, h1⟩
    · rw [h1] at hd
      exact Element.noConfusion hd
    · rw [h1] at hd
      simp only [tick] at hd
      injection hd with hd
      subst hd
      rcases hw x hx with h0 | hfx
      · exact Or.inl h0
      · exact Or.inr (Or.inr hfx)
    · rw [h1] at hd
      simp only [tick, ChildFn.call] at hd
      injection hd with hd
      subst hd
      exact Or.inl (hw x hx)
    · rw [h1] at hd
      rcases animatedChild_height _ _ _ _ _ _ hs hd hx with h0 | hv
      · exact Or.inl h0
      · exact Or.inr (Or.inl hv)
    · rw [h1] at hd
      exact Or.inr (Or.inl (fixedChild_height _ _ _ _ _ hs hd hx))
  refine ⟨getMotionHeight_target_nonneg self h, key, ?_⟩
  intro hv hfix
  rcases key with h0 | h0 | ⟨hf, h0⟩
  · rw [h0]
  · rw [h0]; exact hv
  · rw [h0]; exact hfix hf

/-- C12, amended, at a concrete input: the opened panel measured twice, at the tick 60. -/
theorem heights_nonneg_witness :
    0 ≤ (getMotionHeight measuredTwice.inst 130).target ∧
    ((60 : ℚ) = 0 ∨ (60 : ℚ) = 60 ∨
      (measuredTwice.inst.props.fixedHeight > -1 ∧
        (60 : ℚ) = measuredTwice.inst.props.fixedHeight)) ∧
    ((0 : ℚ) ≤ 60 → (measuredTwice.inst.props.fixedHeight > -1 →
      0 ≤ measuredTwice.inst.props.fixedHeight) → (0 : ℚ) ≤ 60) :=
  heights_nonneg measuredTwice.inst measuredTwice.inst 130 60 60
    ⟨styleBounded 60, Obj.empty, Content.heightReporter "content"⟩
    (by decide!) (by decide!) (by decide!)

/-! ## The committed height string -/

/-- C18, as stated, fails: a panel mounted opened whose content is reported `10^21` high
has the committed height string "1e+21", which has no decimal point. -/
theorem committed_string_exponential :
    (reportHeight (firstRender openProps).1 (10 ^ 21)).1.inst.height = "1e+21" ∧
    ¬ IsOneDecimal (reportHeight (firstRender openProps).1 (10 ^ 21)).1.inst.height := by
  have h1 : (reportHeight (firstRender openProps).1 (10 ^ 21)).1.inst.height = "1e+21" := by
    decide!
  refine ⟨h1, ?_⟩
  rw [h1]
  rintro ⟨a, d, _, h⟩
  have hm : '.' ∈ (Nat.repr a ++ "." ++ Nat.repr d).data := by
    simp [String.data_append]
  rw [← h] at hm
  exact absurd hm (by decide)

theorem isOneDecimal_stringHeight (x : ℚ) (hx : x < 10 ^ 21) : IsOneDecimal (stringHeight x) := by
  by_cases h0 : 0 ≤ x
  · refine ⟨nearestTenths x / 10, nearestTenths x % 10, Nat.mod_lt _ (by decide), ?_⟩
    rw [stringHeight_of_nonneg x h0 hx, mk_fixedDigits]
  · rw [stringHeight_of_neg x (not_le.mp h0)]
    exact ⟨0, 0, by decide, by decide⟩

theorem committed_mount (P : ℚ → Prop) (p : Props) (h0 : P 0) (hp : P p.fixedHeight) :
    Committed P (mount p) :=
  ⟨⟨0, h0, rfl⟩, hp⟩

theorem committed_onHeightReady (P : ℚ → Prop) (self : Inst) (h : ℚ) (hh : P h)
    (hc : Committed P self) : Committed P (onHeightReady self h).1 := by
  refine ⟨?_, hc.2⟩
  simp only [onHeightReady]
  split
  · exact ⟨h, hh, rfl⟩
  · exact hc.1

theorem committed_call (P : ℚ → Prop) (f : ChildFn) (self : Inst) (v : ℚ) (hv : P v)
    (hc : Committed P self) : Committed P (f.call self v).1 := by
  constructor
  · cases f with
    | static d => exact hc.1
    | animated p cur =>
      refine ⟨v, hv, ?_⟩
      simp only [ChildFn.call, animatedChild]
      split
      · split <;> rfl
      · rfl
    | fixed p =>
      refine ⟨v, hv, ?_⟩
      simp only [ChildFn.call, fixedChild]
      split <;> rfl
  · rw [(call_frame f self v).1]
    exact hc.2

theorem committed_render (P : ℚ → Prop) (self : Inst) (hc : Committed P self) :
    Committed P (render self).1 := by
  refine ⟨?_, by rw [(render_frame self).1]; exact hc.2⟩
  unfold render renderFixed
  by_cases hf : self.props.fixedHeight > -1
  · simp only [hf, if_true]
    by_cases hr : self.renderStatic = true
    · simp only [hr, if_true]
      split
      · exact hc.1
      · exact ⟨self.props.fixedHeight, hc.2, rfl⟩
    · simp only [hr]
      exact hc.1
  · simp only [hf, if_false]
    have hk : (if (decide (self.state.height > -1) && self.renderStatic) = true then
        { self with renderStatic := false } else self).height = self.height := by
      split <;> rfl
    split
    · split
      · split
        · rw [hk]; exact hc.1
        · rw [hk]; exact hc.1
      · rw [hk]; exact hc.1
    · rw [hk]; exact hc.1

theorem committed_step (P : ℚ → Prop) (m : Mounted) (op : Op) (hop : op.Feeds P)
    (hc : Committed P m.inst) : Committed P (step m op).1.inst := by
  cases op with
  | receiveProps nextProps refsChanged =>
    have hin : Committed P
        { props := nextProps, state := componentWillReceiveProps m.inst nextProps,
          height := m.inst.height, renderStatic := m.inst.renderStatic } := ⟨hc.1, hop⟩
    simp only [step, updateProps]
    split
    · exact committed_render P _ hin
    · exact hin
  | heightReport height =>
    simp only [step, reportHeight]
    split
    · exact committed_render P _ (committed_onHeightReady P _ _ hop hc)
    · exact committed_onHeightReady P _ _ hop hc
  | tick height =>
    simp only [step, tick]
    split
    · exact committed_call P _ _ _ hop hc
    · exact hc

theorem committed_run (P : ℚ → Prop) (ops : List Op) : ∀ m : Mounted,
    (∀ op ∈ ops, op.Feeds P) → Committed P m.inst → Committed P (run m ops).1.inst := by
  induction ops with
  | nil => intro m _ hc; exact hc
  | cons op ops ih =>
    intro m hops hc
    exact ih _ (fun o ho => hops o (List.mem_cons_of_mem _ ho))
      (committed_step P m op (hops op (List.mem_cons_self _ _)) hc)

/-- C18, amended: on mount the committed height string `this.height` is "0.0", and at
every state reached from the first render by prop changes, height reports and
interpolation ticks it is an output of `stringHeight`; when every height fed to the
component (the `fixedHeight` props, the reported and the interpolated heights) is below
`10^21`, it is the digits of a natural number, a point and exactly one digit, so it
denotes a number `≥ 0`. -/
theorem committed_string_invariant (p : Props) (ops : List Op) :
    (mount p).height = "0.0" ∧
    (∃ x, (run (firstRender p).1 ops).1.inst.height = stringHeight x) ∧
    (p.fixedHeight < 10 ^ 21 → (∀ op ∈ ops, op.Feeds (fun x => x < 10 ^ 21)) →
      IsOneDecimal (run (firstRender p).1 ops).1.inst.height) := by
  refine ⟨stringHeight_zero, ?_, ?_⟩
  · have h := committed_run (fun _ => True) ops (firstRender p).1
      (fun op _ => by cases op <;> trivial)
      (committed_render _ _ (committed_mount _ p trivial trivial))
    obtain ⟨⟨x, _, hx⟩, _⟩ := h
    exact ⟨x, hx⟩
  · intro hp hops
    have h := committed_run (fun x => x < 10 ^ 21) ops (firstRender p).1 hops
      (committed_render _ _ (committed_mount _ p (by norm_num) hp))
    obtain ⟨⟨x, hlt, hx⟩, _⟩ := h
    rw [hx]
    exact isOneDecimal_stringHeight x hlt

/-- C18, amended, at a concrete input: a panel opened, measured at 120, closed and
ticked at 60. -/
theorem committed_string_invariant_witness :
    IsOneDecimal (run (firstRender openProps).1
      [Op.heightReport 120, Op.receiveProps closedProps false, Op.tick 60]).1.inst.height :=
  (committed_string_invariant openProps
    [Op.heightReport 120, Op.receiveProps closedProps false, Op.tick 60]).2.2
    (by decide!)
    (by
      intro op hop
      simp only [List.mem_cons, List.mem_singleton, List.not_mem_nil, or_false] at hop
      rcases hop with rfl | rfl | rfl
      · show (120 : ℚ) < 10 ^ 21
        norm_num
      · show closedProps.fixedHeight < 10 ^ 21
        decide!
      · show (60 : ℚ) < 10 ^ 21
        norm_num)

end Collapse
